import Mathlib

/-!
Verification model of the Ableton-Live-VUI transport/bridging core.

This file shallowly embeds the two source files the specification's claims
concern:

* AbletonMCP_Remote_Script/__init__.py — the in-Live socket server: the
  per-connection receive loop (_handle_client), the command dispatcher
  (_process_command) with its main-thread scheduling and 10 s queue wait,
  the per-track/clip/device command handlers, the depth-bounded browser
  collection and the difflib-based fuzzy search;
* MCP_Server/server.py — the client side: chunked receive-until-valid-JSON
  (receive_full_response), per-command timeouts (send_command) and the
  3-attempt validated reconnect loop (get_ableton_connection).

Modelling conventions, used throughout:
* Python floats are modelled as exact rationals (Rat); the numeric literals
  of the source (0.8, 10.0, 15.0, 1.5 …) denote the corresponding rationals.
* Python strings are modelled as Lean String / List Char; str.lower() is
  modelled by String.toLower (the repository only handles ASCII names).
* Python byte strings (the recv results of the receive loop) are modelled
  as List Nat with entries below 256; bytes.decode('utf-8') is modelled by
  a strict UTF-8 decoder returning none where CPython raises
  UnicodeDecodeError.
* A raised exception is modelled as Except.error carrying str(e); where the
  exact CPython wording of a built-in exception is irrelevant to every claim
  (AttributeError and friends) a fixed stand-in string is used.
* JSON command parameters are read through total getters with the defaults
  of the source (params.get(name, default)); a parameter of the wrong JSON
  type makes the source raise a TypeError which surfaces as an error
  Response — such ill-typed inputs are outside every claim, and the getters
  return the default for them.
* The Ableton Live object model (the host) is the external collaborator of
  spec §6: host-side effects (loading a browser item, the track object a
  create call makes, str_for_value rendering) enter through a Host record
  of uninterpreted functions, universally quantified in the theorems.
-/

/-- JSON values as decoded by json.loads: objects keep their fields in
insertion order with unique names (later duplicates overwrite in place,
exactly as a Python dict built during parsing does). Numbers are exact
rationals. -/
inductive Json where
  /-- The null literal. -/
  | null : Json
  /-- A boolean. -/
  | bool (value : Bool) : Json
  /-- A number, as the exact rational whose float json.loads would return. -/
  | num (value : Rat) : Json
  /-- A string. -/
  | str (value : String) : Json
  /-- An array. -/
  | arr (items : List Json) : Json
  /-- An object: its fields in insertion order, names unique. -/
  | obj (fields : List (String × Json)) : Json

instance {e a : Type} [DecidableEq e] [DecidableEq a] :
    DecidableEq (Except e a) := fun x y =>
  match x, y with
  | .ok v, .ok w =>
      if h : v = w then isTrue (by rw [h]) else isFalse (by simp [h])
  | .error v, .error w =>
      if h : v = w then isTrue (by rw [h]) else isFalse (by simp [h])
  | .ok _, .error _ => isFalse (by simp)
  | .error _, .ok _ => isFalse (by simp)

namespace PyJson

/-- The whitespace characters json.loads skips between tokens. -/
def isWs (c : Char) : Bool :=
  [' ', '\t', '\n', '\r'].contains c

/-- Skip leading JSON whitespace. -/
def skipWs (cs : List Char) : List Char :=
  cs.dropWhile isWs

/-- Insert into an object under construction with Python-dict semantics:
a repeated key overwrites the earlier value in place, a fresh key is
appended. -/
def dictInsert (fields : List (String × Json)) (k : String) (v : Json) :
    List (String × Json) :=
  match fields with
  | [] => [(k, v)]
  | (k0, v0) :: rest =>
      if k0 = k then (k0, v) :: rest else (k0, v0) :: dictInsert rest k v

/-- Hexadecimal digit value, for the \uXXXX escape. -/
def hexVal (c : Char) : Option Nat :=
  let n := c.toNat
  if 48 ≤ n && n ≤ 57 then some (n - 48)
  else if 97 ≤ n && n ≤ 102 then some (n - 87)
  else if 65 ≤ n && n ≤ 70 then some (n - 55)
  else none

/-- Parse the body of a JSON string after the opening quote, returning the
decoded characters and the input after the closing quote. Escapes are the
eight JSON ones plus \uXXXX (modelled as the code point it names); a raw
control character below 0x20 is rejected, as json.loads does in its default
strict mode. -/
def parseStringBody : Nat → List Char → Option (List Char × List Char)
  | 0, _ => none
  | _ + 1, [] => none
  | fuel + 1, c :: cs =>
      if c = '"' then some ([], cs)
      else if c = '\\' then
        match cs with
        | [] => none
        | e :: cs2 =>
            let decoded : Option (Char × List Char) :=
              if e = '"' then some ('"', cs2)
              else if e = '\\' then some ('\\', cs2)
              else if e = '/' then some ('/', cs2)
              else if e = 'b' then some ('\x08', cs2)
              else if e = 'f' then some ('\x0c', cs2)
              else if e = 'n' then some ('\n', cs2)
              else if e = 'r' then some ('\r', cs2)
              else if e = 't' then some ('\t', cs2)
              else if e = 'u' then
                match cs2 with
                | h1 :: h2 :: h3 :: h4 :: cs3 =>
                    match hexVal h1, hexVal h2, hexVal h3, hexVal h4 with
                    | some a, some b, some c3, some d =>
                        let code := ((a * 16 + b) * 16 + c3) * 16 + d
                        if h : code < 0xd800 ∨ 0xdfff < code ∧ code < 0x110000 then
                          some (Char.ofNatAux code h, cs3)
                        else none
                    | _, _, _, _ => none
                | _ => none
              else none
            match decoded with
            | some (d, rest) =>
                match parseStringBody fuel rest with
                | some (tail, rest2) => some (d :: tail, rest2)
                | none => none
            | none => none
      else if c.toNat < 0x20 then none
      else
        match parseStringBody fuel cs with
        | some (tail, rest) => some (c :: tail, rest)
        | none => none

/-- Split a maximal run of decimal digits off the front. -/
def takeDigits (cs : List Char) : List Char × List Char :=
  (cs.takeWhile Char.isDigit, cs.dropWhile Char.isDigit)

/-- Natural number denoted by a digit run. -/
def digitsToNat (ds : List Char) : Nat :=
  ds.foldl (fun acc c => 10 * acc + (c.toNat - 48)) 0

/-- Parse a JSON number per the grammar json.loads uses
(-? (0 | nonzero digits) frac? exp?), as an exact rational. The non-standard
NaN/Infinity literals Python additionally accepts have no rational value and
are not modelled; no claim touches them. -/
def parseNumber (input : List Char) : Option (Rat × List Char) :=
  let (neg, afterSign) :=
    match input with
    | '-' :: cs => (true, cs)
    | cs => (false, cs)
  match afterSign with
  | [] => none
  | c :: cs =>
      if c = '0' then
        parseFrac neg 0 cs
      else if c.isDigit then
        let (ds, rest) := takeDigits cs
        parseFrac neg (digitsToNat (c :: ds)) rest
      else none
where
  /-- Optional fraction then optional exponent. -/
  parseFrac (neg : Bool) (intPart : Nat) (input : List Char) :
      Option (Rat × List Char) :=
    match input with
    | '.' :: cs =>
        let (ds, rest) := takeDigits cs
        if ds.isEmpty then none
        else
          let mant : Nat := intPart * 10 ^ ds.length + digitsToNat ds
          parseExp neg ((mant : Rat) / (10 : Rat) ^ ds.length) rest
    | _ => parseExp neg (intPart : Rat) input
  /-- Optional exponent. -/
  parseExp (neg : Bool) (mant : Rat) (input : List Char) :
      Option (Rat × List Char) :=
    let signed : Rat := if neg then -mant else mant
    match input with
    | 'e' :: cs => parseExpDigits signed cs
    | 'E' :: cs => parseExpDigits signed cs
    | rest => some (signed, rest)
  /-- Exponent digits after e/E. -/
  parseExpDigits (signed : Rat) (input : List Char) :
      Option (Rat × List Char) :=
    let (eneg, cs) :=
      match input with
      | '+' :: cs => (false, cs)
      | '-' :: cs => (true, cs)
      | cs => (false, cs)
    let (ds, rest) := takeDigits cs
    if ds.isEmpty then none
    else
      let e := digitsToNat ds
      let scaled := if eneg then signed / (10 : Rat) ^ e else signed * (10 : Rat) ^ e
      some (scaled, rest)

/-- Match a literal keyword at the front of the input. -/
def matchLit (lit : List Char) (input : List Char) : Option (List Char) :=
  match lit, input with
  | [], rest => some rest
  | l :: ls, c :: cs => if l = c then matchLit ls cs else none
  | _ :: _, [] => none

mutual

/-- Parse one JSON value (leading whitespace allowed), returning it and the
unconsumed input. Fuel bounds the recursion; jsonLoads supplies more fuel
than any input of that length can consume. -/
def parseValue : Nat → List Char → Option (Json × List Char)
  | 0, _ => none
  | fuel + 1, input =>
      match skipWs input with
      | [] => none
      | c :: cs =>
          if c = '{' then
            match skipWs cs with
            | '}' :: rest => some (Json.obj [], rest)
            | rest =>
                match parseMembers fuel [] rest with
                | some (fields, rest2) => some (Json.obj fields, rest2)
                | none => none
          else if c = '[' then
            match skipWs cs with
            | ']' :: rest => some (Json.arr [], rest)
            | rest =>
                match parseElems fuel [] rest with
                | some (elems, rest2) => some (Json.arr elems, rest2)
                | none => none
          else if c = '"' then
            match parseStringBody (cs.length + 1) cs with
            | some (body, rest) => some (Json.str (String.mk body), rest)
            | none => none
          else if c = 't' then
            match matchLit ['r', 'u', 'e'] cs with
            | some rest => some (Json.bool true, rest)
            | none => none
          else if c = 'f' then
            match matchLit ['a', 'l', 's', 'e'] cs with
            | some rest => some (Json.bool false, rest)
            | none => none
          else if c = 'n' then
            match matchLit ['u', 'l', 'l'] cs with
            | some rest => some (Json.null, rest)
            | none => none
          else
            match parseNumber (c :: cs) with
            | some (q, rest) => some (Json.num q, rest)
            | none => none

/-- Parse the members of a non-empty object, the input starting at the first
key (whitespace possibly leading). Accumulates with dict-overwrite
semantics. -/
def parseMembers : Nat → List (String × Json) → List Char →
    Option (List (String × Json) × List Char)
  | 0, _, _ => none
  | fuel + 1, acc, input =>
      match skipWs input with
      | '"' :: cs =>
          match parseStringBody (cs.length + 1) cs with
          | some (key, afterKey) =>
              match skipWs afterKey with
              | ':' :: afterColon =>
                  match parseValue fuel afterColon with
                  | some (v, afterVal) =>
                      let acc2 := dictInsert acc (String.mk key) v
                      match skipWs afterVal with
                      | ',' :: rest => parseMembers fuel acc2 rest
                      | '}' :: rest => some (acc2, rest)
                      | _ => none
                  | none => none
              | _ => none
          | none => none
      | _ => none

/-- Parse the elements of a non-empty array, the input starting at the first
element. -/
def parseElems : Nat → List Json → List Char →
    Option (List Json × List Char)
  | 0, _, _ => none
  | fuel + 1, acc, input =>
      match parseValue fuel input with
      | some (v, afterVal) =>
          match skipWs afterVal with
          | ',' :: rest => parseElems fuel (acc ++ [v]) rest
          | ']' :: rest => some (acc ++ [v], rest)
          | _ => none
      | none => none

end

/-- Model of json.loads on a character sequence: parse exactly one JSON
document, allowing surrounding whitespace; anything left over (Python's
"Extra data") or any syntax error yields none (the ValueError the callers
catch). -/
def jsonLoads (input : List Char) : Option Json :=
  match parseValue (4 * input.length + 8) input with
  | some (v, rest) => if (skipWs rest).isEmpty then some v else none
  | none => none

/-- json.loads applied to a Lean string. -/
def jsonLoadsStr (s : String) : Option Json := jsonLoads s.data

end PyJson

namespace Difflib

/-!
Model of difflib.SequenceMatcher(None, a, b).ratio() as the fuzzy search
uses it (line 1209 of the remote script): no junk is declared, and the
autojunk heuristic only engages for a second sequence of 200+ elements,
far beyond any browser item name, so it is not modelled.
-/

/-- Character of a list at an index inside the ranges the matcher walks
(every access below stays in range; the default is never read). -/
def chAt (l : List Char) (i : Nat) : Char := l.getD i '\x00'

/-- Lookup in the j2len row of the dynamic program, defaulting to 0 as
dict.get(j-1, 0) does. -/
def rowGet (row : List (Nat × Nat)) (j : Nat) : Nat :=
  match row.lookup j with
  | some v => v
  | none => 0

/-- One i-row of find_longest_match's dynamic program: walk j over
[blo, bhi) in increasing order, extend the diagonal run lengths of the
previous row, and improve the best block on a strictly longer match (so the
earliest longest block, smallest i then smallest j, is kept, as the strict
comparison in the source does). -/
def flmRow (a b : List Char) (blo bhi i : Nat) (prev : List (Nat × Nat))
    (best : Nat × Nat × Nat) : List (Nat × Nat) × (Nat × Nat × Nat) :=
  ((List.range (bhi - blo)).map (· + blo)).foldl
    (fun (st : List (Nat × Nat) × (Nat × Nat × Nat)) j =>
      let (row, bst) := st
      if chAt b j = chAt a i then
        let k := (if j = 0 then 0 else rowGet prev (j - 1)) + 1
        let bst2 := if k > bst.2.2 then (i + 1 - k, j + 1 - k, k) else bst
        ((j, k) :: row, bst2)
      else st)
    ([], best)

/-- The dynamic program of find_longest_match over i in [alo, ahi). -/
def flmCore (a b : List Char) (alo ahi blo bhi : Nat) : Nat × Nat × Nat :=
  (((List.range (ahi - alo)).map (· + alo)).foldl
    (fun (st : List (Nat × Nat) × (Nat × Nat × Nat)) i =>
      flmRow a b blo bhi i st.1 st.2)
    ([], (alo, blo, 0))).2

/-- The first post-DP extension loop of find_longest_match: grow the block
leftwards while the adjacent characters match (the junk guard is vacuous
with no junk). -/
def extendLeft (a b : List Char) (alo blo : Nat) :
    Nat → Nat × Nat × Nat → Nat × Nat × Nat
  | 0, best => best
  | fuel + 1, (besti, bestj, bestsize) =>
      if alo < besti && blo < bestj && chAt a (besti - 1) = chAt b (bestj - 1) then
        extendLeft a b alo blo fuel (besti - 1, bestj - 1, bestsize + 1)
      else (besti, bestj, bestsize)

/-- The second post-DP extension loop: grow the block rightwards while the
adjacent characters match. -/
def extendRight (a b : List Char) (ahi bhi : Nat) :
    Nat → Nat × Nat × Nat → Nat × Nat × Nat
  | 0, best => best
  | fuel + 1, (besti, bestj, bestsize) =>
      if besti + bestsize < ahi && bestj + bestsize < bhi &&
          chAt a (besti + bestsize) = chAt b (bestj + bestsize) then
        extendRight a b ahi bhi fuel (besti, bestj, bestsize + 1)
      else (besti, bestj, bestsize)

/-- find_longest_match(alo, ahi, blo, bhi): the dynamic program followed by
the two extension loops (the further junk-adjacent loops of the source are
no-ops with no junk declared). -/
def findLongestMatch (a b : List Char) (alo ahi blo bhi : Nat) :
    Nat × Nat × Nat :=
  let best := flmCore a b alo ahi blo bhi
  let best := extendLeft a b alo blo best.1 best
  extendRight a b ahi bhi (ahi + 1) best

/-- Total size of the matching blocks of get_matching_blocks, computed by
the same recursive decomposition the source's work queue performs: the
longest block plus the blocks of the regions to its left and right. The
fuel exceeds the recursion depth for every call jsonable strings produce. -/
def matchTotal (a b : List Char) : Nat → Nat → Nat → Nat → Nat → Nat
  | 0, _, _, _, _ => 0
  | fuel + 1, alo, ahi, blo, bhi =>
      let (i, j, k) := findLongestMatch a b alo ahi blo bhi
      if k = 0 then 0
      else
        k + matchTotal a b fuel alo i blo j +
          matchTotal a b fuel (i + k) ahi (j + k) bhi

/-- SequenceMatcher(None, a, b).ratio(): 2·M / (len(a) + len(b)), and 1.0
when both are empty (difflib._calculate_ratio). -/
def seqRatio (sa sb : String) : Rat :=
  let a := sa.data
  let b := sb.data
  let t := a.length + b.length
  if t = 0 then 1
  else
    (2 * (matchTotal a b (t + 1) 0 a.length 0 b.length) : Rat) / (t : Rat)

/-- Python's substring containment test, needle in hay. -/
def strIn (needle hay : String) : Bool :=
  (List.range (hay.data.length + 1)).any
    (fun i => needle.data.isPrefixOf (hay.data.drop i))

end Difflib

namespace AbletonMCP

/-! ### The Live object model and the host collaborator -/

/-- A device parameter (name, value, range, enablement) of the host object
model. -/
structure DeviceParameter where
  name : String
  value : Rat
  min : Rat
  max : Rat
  is_enabled : Bool
deriving DecidableEq

/-- A device on a track. -/
structure Device where
  name : String
  class_name : String
  class_display_name : String
  can_have_drum_pads : Bool
  can_have_chains : Bool
  parameters : List DeviceParameter
deriving DecidableEq

/-- A clip in a clip slot. -/
structure Clip where
  name : String
  length : Rat
  is_playing : Bool
  is_recording : Bool
  notes : List (Rat × Rat × Rat × Rat × Bool)
deriving DecidableEq

/-- A clip slot; has_clip of the source is clip.isSome. -/
structure ClipSlot where
  clip : Option Clip
deriving DecidableEq

/-- A routing type as the routing handlers see it (category is absent on
some host objects, hence optional). -/
structure RoutingType where
  display_name : String
  category : Option String
deriving DecidableEq

/-- A routing channel. -/
structure RoutingChannel where
  display_name : String
deriving DecidableEq

/-- A track of the song with every field the modelled handlers touch. -/
structure Track where
  name : String
  has_audio_input : Bool
  has_midi_input : Bool
  mute : Bool
  solo : Bool
  arm : Bool
  volume : Rat
  panning : Rat
  color_index : Int
  clip_slots : List ClipSlot
  devices : List Device
  available_output_routing_types : List RoutingType
  output_routing_type : Option RoutingType
  available_output_routing_channels : List RoutingChannel
  output_routing_channel : Option RoutingChannel
  available_input_routing_types : List RoutingType
  input_routing_type : Option RoutingType
  available_input_routing_channels : List RoutingChannel
  input_routing_channel : Option RoutingChannel
  current_monitoring_state : Int
deriving DecidableEq

/-- The song (self._song): every piece of host state the modelled handlers
read or write. selected_track models song.view.selected_track as an index. -/
structure Song where
  tracks : List Track
  return_track_count : Nat
  tempo : Rat
  signature_numerator : Int
  signature_denominator : Int
  is_playing : Bool
  master_volume : Rat
  master_panning : Rat
  selected_track : Option Nat
deriving DecidableEq

/-- A browser tree node (name, uri, loadability flags, children). -/
inductive BrowserNode where
  | node (name uri : String) (is_loadable is_device : Bool)
      (children : List BrowserNode)

/-- Name of a browser node. -/
def BrowserNode.name : BrowserNode → String
  | .node n _ _ _ _ => n

/-- URI of a browser node. -/
def BrowserNode.uri : BrowserNode → String
  | .node _ u _ _ _ => u

/-- is_loadable flag of a browser node. -/
def BrowserNode.is_loadable : BrowserNode → Bool
  | .node _ _ l _ _ => l

/-- is_device flag of a browser node. -/
def BrowserNode.is_device : BrowserNode → Bool
  | .node _ _ _ d _ => d

/-- Children of a browser node. -/
def BrowserNode.children : BrowserNode → List BrowserNode
  | .node _ _ _ _ c => c

/-- The five root categories of app.browser. -/
structure Browser where
  instruments : BrowserNode
  sounds : BrowserNode
  drums : BrowserNode
  audio_effects : BrowserNode
  midi_effects : BrowserNode

/-- A collected browser item, the dict with name and uri that
_collect_browser_items appends. -/
structure BrowserItemRef where
  name : String
  uri : String
deriving DecidableEq

/-- The host application (external collaborator of spec §6): the browser
tree plus the host-side effects and renderings the handlers invoke. Each
function field is uninterpreted and universally quantified in every
theorem. -/
structure Host where
  browser : Browser
  /-- app.browser.load_item(item): host loads the item onto the selected
  track. -/
  loadItem : Song → BrowserNode → Song
  /-- param.str_for_value(v) rendering. -/
  strForValue : DeviceParameter → Rat → String
  /-- The direct browser read commands (get_browser_item, get_browser_tree,
  get_browser_items_at_path): pure host-browser reads, not modelled further
  because no claim depends on their output. -/
  browserRead : String → List (String × Json) → Except String Json
  /-- The track object Live creates for create_midi_track. -/
  newMidiTrack : Track
  /-- The track object Live creates for create_audio_track. -/
  newAudioTrack : Track
  /-- The clip object clip_slot.create_clip(length) creates. -/
  newClip : Rat → Clip
  /-- The duplicate track object song.duplicate_track inserts. -/
  dupTrack : Track → Track

/-! ### Parameter extraction (params.get with the defaults of the source) -/

/-- params.get(name, default) for a numeric parameter. -/
def getNumParam (params : List (String × Json)) (name : String) (d : Rat) :
    Rat :=
  match params.lookup name with
  | some (Json.num q) => q
  | _ => d

/-- params.get(name, default) for an integer index parameter. -/
def getIntParam (params : List (String × Json)) (name : String) (d : Int) :
    Int :=
  match params.lookup name with
  | some (Json.num q) => if q.den = 1 then q.num else d
  | _ => d

/-- params.get(name, default) for a string parameter. -/
def getStrParam (params : List (String × Json)) (name : String) (d : String) :
    String :=
  match params.lookup name with
  | some (Json.str s) => s
  | _ => d

/-- Python truthiness of a JSON-decoded value, for bool(x) and `if x:`. -/
def truthy : Json → Bool
  | .null => false
  | .bool b => b
  | .num q => q ≠ 0
  | .str s => s ≠ ""
  | .arr l => !l.isEmpty
  | .obj f => !f.isEmpty

/-- bool(params.get(name, default)) for the armed/muted/soloed flags. -/
def getTruthyParam (params : List (String × Json)) (name : String) (d : Bool) :
    Bool :=
  match params.lookup name with
  | some j => truthy j
  | none => d

/-- params.get(name, None) for the optional channel_name string. -/
def getOptStrParam (params : List (String × Json)) (name : String) :
    Option String :=
  match params.lookup name with
  | some (Json.str s) => some s
  | _ => none

/-- params.get(name, default-list) for the notes parameter. -/
def getArrParam (params : List (String × Json)) (name : String) : List Json :=
  match params.lookup name with
  | some (Json.arr l) => l
  | _ => []

/-- Python list indexing, negative indices counting from the end. -/
def pyListGet {α : Type} (l : List α) (i : Int) : Except String α :=
  let j : Int := if i < 0 then i + l.length else i
  if 0 ≤ j ∧ j < (l.length : Int) then
    match l.get? j.toNat with
    | some a => Except.ok a
    | none => Except.error "list index out of range"
  else Except.error "list index out of range"

/-- int(x) on a rational: truncation toward zero. -/
def pyInt (q : Rat) : Int := if q < 0 then -(Int.floor (-q)) else Int.floor q

/-- Stand-in for the text of a CPython AttributeError; its exact wording is
irrelevant to every claim. -/
def attributeErrorMsg : String := "AttributeError"

/-- JSON number from an integer. -/
def jInt (i : Int) : Json := Json.num (i : Rat)

/-- JSON number from a natural. -/
def jNat (n : Nat) : Json := Json.num (n : Rat)

/-- JSON string-or-null from an optional string. -/
def optStrJson : Option String → Json
  | some s => Json.str s
  | none => Json.null

/-! ### Guards shared by the handlers -/

/-- The two lines every track-indexed handler opens with: the bounds check
raising IndexError("Track index out of range"), then
track = self._song.tracks[track_index]. -/
def trackGuard (song : Song) (track_index : Int) : Except String Track :=
  if track_index < 0 ∨ (song.tracks.length : Int) ≤ track_index then
    Except.error "Track index out of range"
  else pyListGet song.tracks track_index

/-- Device bounds check plus access. -/
def deviceGuard (track : Track) (device_index : Int) : Except String Device :=
  if device_index < 0 ∨ (track.devices.length : Int) ≤ device_index then
    Except.error "Device index out of range"
  else pyListGet track.devices device_index

/-- Clip-slot bounds check plus access. -/
def clipGuard (track : Track) (clip_index : Int) : Except String ClipSlot :=
  if clip_index < 0 ∨ (track.clip_slots.length : Int) ≤ clip_index then
    Except.error "Clip index out of range"
  else pyListGet track.clip_slots clip_index

/-- Replace the track at an in-range index (mutation through the track
reference in the source). -/
def setTrack (song : Song) (track_index : Int) (t : Track) : Song :=
  { song with tracks := song.tracks.set track_index.toNat t }

/-- Update the first list element satisfying the test (mutation through the
reference found by a search loop in the source). -/
def setFirst {α : Type} (p : α → Bool) (f : α → α) : List α → List α
  | [] => []
  | x :: xs => if p x then f x :: xs else x :: setFirst p f xs

/-! ### Direct (read-only) handlers -/

/-- _get_device_type: the class heuristic of the source. -/
def getDeviceType (d : Device) : String :=
  if d.can_have_drum_pads then "drum_machine"
  else if d.can_have_chains then "rack"
  else if Difflib.strIn "instrument" d.class_display_name.toLower then
    "instrument"
  else if Difflib.strIn "audio_effect" d.class_name.toLower then "audio_effect"
  else if Difflib.strIn "midi_effect" d.class_name.toLower then "midi_effect"
  else "unknown"

/-- _get_session_info. -/
def getSessionInfo (song : Song) : Json :=
  Json.obj [
    ("tempo", Json.num song.tempo),
    ("signature_numerator", jInt song.signature_numerator),
    ("signature_denominator", jInt song.signature_denominator),
    ("track_count", jNat song.tracks.length),
    ("return_track_count", jNat song.return_track_count),
    ("tracks", Json.arr (song.tracks.enum.map (fun p =>
      Json.obj [("index", jNat p.1), ("name", Json.str p.2.name)]))),
    ("master_track", Json.obj [
      ("name", Json.str "Master"),
      ("volume", Json.num song.master_volume),
      ("panning", Json.num song.master_panning)])]

/-- The clip dict of _get_track_info (None when the slot is empty). -/
def clipInfoJson : Option Clip → Json
  | none => Json.null
  | some c => Json.obj [
      ("name", Json.str c.name), ("length", Json.num c.length),
      ("is_playing", Json.bool c.is_playing),
      ("is_recording", Json.bool c.is_recording)]

/-- _get_track_info. -/
def getTrackInfo (song : Song) (track_index : Int) : Except String Json := do
  let track ← trackGuard song track_index
  Except.ok (Json.obj [
    ("index", jInt track_index),
    ("name", Json.str track.name),
    ("is_audio_track", Json.bool track.has_audio_input),
    ("is_midi_track", Json.bool track.has_midi_input),
    ("mute", Json.bool track.mute),
    ("solo", Json.bool track.solo),
    ("arm", Json.bool track.arm),
    ("volume", Json.num track.volume),
    ("panning", Json.num track.panning),
    ("clip_slots", Json.arr (track.clip_slots.enum.map (fun p =>
      Json.obj [("index", jNat p.1), ("has_clip", Json.bool p.2.clip.isSome),
                ("clip", clipInfoJson p.2.clip)]))),
    ("devices", Json.arr (track.devices.enum.map (fun p =>
      Json.obj [("index", jNat p.1), ("name", Json.str p.2.name),
                ("class_name", Json.str p.2.class_name),
                ("type", Json.str (getDeviceType p.2))])))])

/-- _get_device_parameters. -/
def getDeviceParameters (host : Host) (song : Song)
    (track_index device_index : Int) : Except String Json := do
  let track ← trackGuard song track_index
  let device ← deviceGuard track device_index
  Except.ok (Json.obj [
    ("track_index", jInt track_index),
    ("device_index", jInt device_index),
    ("device_name", Json.str device.name),
    ("parameters", Json.arr (device.parameters.enum.map (fun p =>
      Json.obj [("index", jNat p.1), ("name", Json.str p.2.name),
                ("value", Json.num p.2.value), ("min", Json.num p.2.min),
                ("max", Json.num p.2.max),
                ("is_enabled", Json.bool p.2.is_enabled),
                ("value_string", Json.str (host.strForValue p.2 p.2.value))])))])

/-! ### State-mutating handlers (run via the main-thread task) -/

/-- _set_device_parameter: bounds checks, case-insensitive parameter search,
clamp, write, then build the result dict — whose old_value field reads
param_found.value after the assignment. -/
def setDeviceParameter (host : Host) (song : Song)
    (track_index device_index : Int) (parameter_name : String) (value : Rat) :
    Except String (Song × Json) := do
  let track ← trackGuard song track_index
  let device ← deviceGuard track device_index
  match device.parameters.find?
      (fun p => p.name.toLower = parameter_name.toLower) with
  | none =>
      Except.error ("Parameter '" ++ parameter_name ++
        "' not found on device '" ++ device.name ++ "'")
  | some param_found =>
      let clamped_value := max param_found.min (min param_found.max value)
      let param2 := { param_found with value := clamped_value }
      let params2 := setFirst (fun p => p.name.toLower = parameter_name.toLower)
        (fun p => { p with value := clamped_value }) device.parameters
      let device2 := { device with parameters := params2 }
      let devices2 := track.devices.set device_index.toNat device2
      let track2 := { track with devices := devices2 }
      let song2 := setTrack song track_index track2
      Except.ok (song2, Json.obj [
        ("track_index", jInt track_index),
        ("device_index", jInt device_index),
        ("device_name", Json.str device.name),
        ("parameter_name", Json.str param2.name),
        ("old_value", Json.num param2.value),
        ("new_value", Json.num clamped_value),
        ("value_string", Json.str (host.strForValue param2 clamped_value))])

/-- song.create_midi_track / create_audio_track host insertion: -1 appends,
an in-range index inserts there, anything else is a host-side error. -/
def liveInsertTrack (tracks : List Track) (t : Track) (index : Int) :
    Except String (List Track) :=
  if index = -1 then Except.ok (tracks ++ [t])
  else if 0 ≤ index ∧ index ≤ (tracks.length : Int) then
    Except.ok (tracks.take index.toNat ++ [t] ++ tracks.drop index.toNat)
  else Except.error "invalid track creation index"

/-- _create_midi_track. -/
def createMidiTrack (host : Host) (song : Song) (index : Int) :
    Except String (Song × Json) := do
  let tracks2 ← liveInsertTrack song.tracks host.newMidiTrack index
  let song2 := { song with tracks := tracks2 }
  let new_track_index : Int := if index = -1 then (tracks2.length : Int) - 1 else index
  let new_track ← pyListGet tracks2 new_track_index
  Except.ok (song2, Json.obj [
    ("index", jInt new_track_index), ("name", Json.str new_track.name)])

/-- _create_audio_track. -/
def createAudioTrack (host : Host) (song : Song) (index : Int) :
    Except String (Song × Json) := do
  let tracks2 ← liveInsertTrack song.tracks host.newAudioTrack index
  let song2 := { song with tracks := tracks2 }
  let new_track_index : Int := if index = -1 then (tracks2.length : Int) - 1 else index
  let new_track ← pyListGet tracks2 new_track_index
  Except.ok (song2, Json.obj [
    ("index", jInt new_track_index), ("name", Json.str new_track.name)])

/-- _delete_track. -/
def deleteTrack (song : Song) (track_index : Int) :
    Except String (Song × Json) := do
  let track ← trackGuard song track_index
  let song2 := { song with tracks := song.tracks.eraseIdx track_index.toNat }
  Except.ok (song2, Json.obj [
    ("deleted_track", Json.str track.name), ("deleted_index", jInt track_index)])

/-- _duplicate_track: the duplicate is inserted right after the original. -/
def duplicateTrack (host : Host) (song : Song) (track_index : Int) :
    Except String (Song × Json) := do
  let track ← trackGuard song track_index
  let tracks2 := song.tracks.take (track_index.toNat + 1) ++ [host.dupTrack track] ++
    song.tracks.drop (track_index.toNat + 1)
  let song2 := { song with tracks := tracks2 }
  let new_track_index := track_index + 1
  let new_track ← pyListGet tracks2 new_track_index
  Except.ok (song2, Json.obj [
    ("original_index", jInt track_index),
    ("new_index", jInt new_track_index),
    ("new_track_name", Json.str new_track.name)])

/-- _set_track_name. -/
def setTrackName (song : Song) (track_index : Int) (name : String) :
    Except String (Song × Json) := do
  let track ← trackGuard song track_index
  let track2 := { track with name := name }
  Except.ok (setTrack song track_index track2,
    Json.obj [("name", Json.str track2.name)])

/-- _set_track_volume: clamp into [0, 1], write, report the value read back
from the mixer device. -/
def setTrackVolume (song : Song) (track_index : Int) (volume : Rat) :
    Except String (Song × Json) := do
  let track ← trackGuard song track_index
  let volume2 := max 0 (min 1 volume)
  let track2 := { track with volume := volume2 }
  Except.ok (setTrack song track_index track2, Json.obj [
    ("track_index", jInt track_index), ("volume", Json.num track2.volume)])

/-- _set_track_pan: clamp into [-1, 1]. -/
def setTrackPan (song : Song) (track_index : Int) (pan : Rat) :
    Except String (Song × Json) := do
  let track ← trackGuard song track_index
  let pan2 := max (-1) (min 1 pan)
  let track2 := { track with panning := pan2 }
  Except.ok (setTrack song track_index track2, Json.obj [
    ("track_index", jInt track_index), ("pan", Json.num track2.panning)])

/-- _arm_track. -/
def armTrack (song : Song) (track_index : Int) (armed : Bool) :
    Except String (Song × Json) := do
  let track ← trackGuard song track_index
  let track2 := { track with arm := armed }
  Except.ok (setTrack song track_index track2, Json.obj [
    ("track_index", jInt track_index), ("armed", Json.bool track2.arm)])

/-- _mute_track. -/
def muteTrack (song : Song) (track_index : Int) (muted : Bool) :
    Except String (Song × Json) := do
  let track ← trackGuard song track_index
  let track2 := { track with mute := muted }
  Except.ok (setTrack song track_index track2, Json.obj [
    ("track_index", jInt track_index), ("muted", Json.bool track2.mute)])

/-- _solo_track. -/
def soloTrack (song : Song) (track_index : Int) (soloed : Bool) :
    Except String (Song × Json) := do
  let track ← trackGuard song track_index
  let track2 := { track with solo := soloed }
  Except.ok (setTrack song track_index track2, Json.obj [
    ("track_index", jInt track_index), ("soloed", Json.bool track2.solo)])

/-- _set_track_color. -/
def setTrackColor (song : Song) (track_index : Int) (color_index : Int) :
    Except String (Song × Json) := do
  let track ← trackGuard song track_index
  let track2 := { track with color_index := color_index }
  Except.ok (setTrack song track_index track2, Json.obj [
    ("track_index", jInt track_index),
    ("color_index", jInt track2.color_index)])

/-- _create_clip: both bounds checks, the already-occupied check, then the
host creates the clip. -/
def createClip (host : Host) (song : Song) (track_index clip_index : Int)
    (length : Rat) : Except String (Song × Json) := do
  let track ← trackGuard song track_index
  let slot ← clipGuard track clip_index
  if slot.clip.isSome then Except.error "Clip slot already has a clip"
  else
    let clip := host.newClip length
    let slots2 := track.clip_slots.set clip_index.toNat ⟨some clip⟩
    let track2 := { track with clip_slots := slots2 }
    Except.ok (setTrack song track_index track2, Json.obj [
      ("name", Json.str clip.name), ("length", Json.num clip.length)])

/-- One note dict of _add_notes_to_clip: (pitch, start_time, duration,
velocity, mute) with the defaults of the source; a non-dict element makes
note.get raise. -/
def noteOfJson : Json → Except String (Rat × Rat × Rat × Rat × Bool)
  | Json.obj fields =>
      Except.ok (getNumParam fields "pitch" 60,
        getNumParam fields "start_time" 0,
        getNumParam fields "duration" (1/4),
        getNumParam fields "velocity" 100,
        getTruthyParam fields "mute" false)
  | _ => Except.error attributeErrorMsg

/-- _add_notes_to_clip: clip.set_notes replaces the clip's notes (host
behaviour). -/
def addNotesToClip (song : Song) (track_index clip_index : Int)
    (notes : List Json) : Except String (Song × Json) := do
  let track ← trackGuard song track_index
  let slot ← clipGuard track clip_index
  match slot.clip with
  | none => Except.error "No clip in slot"
  | some clip =>
      let live_notes ← notes.mapM noteOfJson
      let clip2 := { clip with notes := live_notes }
      let slots2 := track.clip_slots.set clip_index.toNat ⟨some clip2⟩
      let track2 := { track with clip_slots := slots2 }
      Except.ok (setTrack song track_index track2,
        Json.obj [("note_count", jNat notes.length)])

/-- _set_clip_name. -/
def setClipName (song : Song) (track_index clip_index : Int) (name : String) :
    Except String (Song × Json) := do
  let track ← trackGuard song track_index
  let slot ← clipGuard track clip_index
  match slot.clip with
  | none => Except.error "No clip in slot"
  | some clip =>
      let clip2 := { clip with name := name }
      let slots2 := track.clip_slots.set clip_index.toNat ⟨some clip2⟩
      let track2 := { track with clip_slots := slots2 }
      Except.ok (setTrack song track_index track2,
        Json.obj [("name", Json.str clip2.name)])

/-- _set_tempo. -/
def setTempo (song : Song) (tempo : Rat) : Except String (Song × Json) :=
  let song2 := { song with tempo := tempo }
  Except.ok (song2, Json.obj [("tempo", Json.num song2.tempo)])

/-- _fire_clip: clip_slot.fire() starts the clip playing (host behaviour). -/
def fireClip (song : Song) (track_index clip_index : Int) :
    Except String (Song × Json) := do
  let track ← trackGuard song track_index
  let slot ← clipGuard track clip_index
  match slot.clip with
  | none => Except.error "No clip in slot"
  | some clip =>
      let clip2 := { clip with is_playing := true }
      let slots2 := track.clip_slots.set clip_index.toNat ⟨some clip2⟩
      let track2 := { track with clip_slots := slots2 }
      Except.ok (setTrack song track_index track2,
        Json.obj [("fired", Json.bool true)])

/-- _stop_clip: clip_slot.stop() stops whatever clip is there (no
has_clip check in the source). -/
def stopClip (song : Song) (track_index clip_index : Int) :
    Except String (Song × Json) := do
  let track ← trackGuard song track_index
  let slot ← clipGuard track clip_index
  let slot2 : ClipSlot := ⟨slot.clip.map (fun c => { c with is_playing := false })⟩
  let slots2 := track.clip_slots.set clip_index.toNat slot2
  let track2 := { track with clip_slots := slots2 }
  Except.ok (setTrack song track_index track2,
    Json.obj [("stopped", Json.bool true)])

/-- _start_playback. -/
def startPlayback (song : Song) : Except String (Song × Json) :=
  let song2 := { song with is_playing := true }
  Except.ok (song2, Json.obj [("playing", Json.bool song2.is_playing)])

/-- _stop_playback. -/
def stopPlayback (song : Song) : Except String (Song × Json) :=
  let song2 := { song with is_playing := false }
  Except.ok (song2, Json.obj [("playing", Json.bool song2.is_playing)])

/-- _set_track_monitoring: bounds check, value validation, then the write. -/
def setTrackMonitoring (song : Song) (track_index : Int)
    (monitoring_state : Int) : Except String (Song × Json) := do
  let track ← trackGuard song track_index
  if monitoring_state = 0 ∨ monitoring_state = 1 ∨ monitoring_state = 2 then
    let track2 := { track with current_monitoring_state := monitoring_state }
    Except.ok (setTrack song track_index track2, Json.obj [
      ("track_index", jInt track_index),
      ("track_name", Json.str track2.name),
      ("monitoring_state", jInt track2.current_monitoring_state),
      ("monitoring_state_name",
        Json.str (monitoringName track2.current_monitoring_state))])
  else Except.error "Monitoring state must be 0 (In), 1 (Auto), or 2 (Off)"
where
  /-- monitoring_names.get(state, "Unknown"). -/
  monitoringName (s : Int) : String :=
    if s = 0 then "In" else if s = 1 then "Auto"
    else if s = 2 then "Off" else "Unknown"

/-! ### Browser traversal, fuzzy search, routing -/

mutual

/-- _collect_browser_items: stop at the depth bound, collect the node when
it is loadable and a device, recurse into the children one level deeper. -/
def collectBrowserItems : BrowserNode → Int → Nat → List BrowserItemRef
  | .node nm u ld dev children, maxDepth, currentDepth =>
      if (currentDepth : Int) ≥ maxDepth then []
      else
        (if ld && dev then [⟨nm, u⟩] else []) ++
        collectChildren children maxDepth (currentDepth + 1)

/-- The children loop of _collect_browser_items. -/
def collectChildren : List BrowserNode → Int → Nat → List BrowserItemRef
  | [], _, _ => []
  | n :: rest, maxDepth, currentDepth =>
      collectBrowserItems n maxDepth currentDepth ++
      collectChildren rest maxDepth currentDepth

end

mutual

/-- _find_browser_item_by_uri on a browser item: the uri test comes before
the depth bound, then the children are searched one level deeper. -/
def findItemByUriNode : BrowserNode → String → Nat → Option BrowserNode
  | .node nm u ld dev children, uri, currentDepth =>
      if u = uri then some (.node nm u ld dev children)
      else if currentDepth ≥ 10 then none
      else findItemInChildren children uri (currentDepth + 1)

/-- The children loop of _find_browser_item_by_uri. -/
def findItemInChildren : List BrowserNode → String → Nat → Option BrowserNode
  | [], _, _ => none
  | n :: rest, uri, currentDepth =>
      match findItemByUriNode n uri currentDepth with
      | some it => some it
      | none => findItemInChildren rest uri currentDepth

end

/-- _find_browser_item_by_uri applied to app.browser itself: the browser has
no uri, so the five root categories are searched at depth 1. -/
def findItemByUri (b : Browser) (uri : String) : Option BrowserNode :=
  findItemInChildren
    [b.instruments, b.sounds, b.drums, b.audio_effects, b.midi_effects] uri 1

/-- The category_map lookup of _get_all_browser_items. -/
def categoryRoot (b : Browser) (category_name : String) : Option BrowserNode :=
  let n := category_name.toLower
  if n = "audio_effects" then some b.audio_effects
  else if n = "midi_effects" then some b.midi_effects
  else if n = "instruments" then some b.instruments
  else if n = "drums" then some b.drums
  else if n = "sounds" then some b.sounds
  else none

/-- _get_all_browser_items, returning the collected item list. -/
def getAllBrowserItems (b : Browser) (category_name : String)
    (maxDepth : Int) : Except String (List BrowserItemRef) :=
  match categoryRoot b category_name with
  | none =>
      Except.error ("Invalid category: " ++ category_name ++
        ". Must be one of: audio_effects, midi_effects, instruments, drums, sounds")
  | some root => Except.ok (collectBrowserItems root maxDepth 0)

/-- The item dict (name, uri) the browser commands return. -/
def itemRefJson (r : BrowserItemRef) : Json :=
  Json.obj [("name", Json.str r.name), ("uri", Json.str r.uri)]

/-- The result dict of _get_all_browser_items. -/
def getAllBrowserItemsJson (b : Browser) (category_name : String)
    (maxDepth : Int) : Except String Json :=
  (getAllBrowserItems b category_name maxDepth).map (fun items =>
    Json.obj [("category", Json.str category_name),
      ("count", jNat items.length),
      ("items", Json.arr (items.map itemRefJson))])

/-- The per-candidate score of _fuzzy_search_browser (lines 1209-1213): the
SequenceMatcher ratio of the lowercased strings, floored at 0.8 when the
lowercase query occurs in the lowercase candidate. -/
def fuzzyScore (device_name item_name : String) : Rat :=
  let q := device_name.toLower
  let c := item_name.toLower
  let ratio := Difflib.seqRatio q c
  if Difflib.strIn q c then max ratio (4/5) else ratio

/-- The best-match loop of _fuzzy_search_browser: best_ratio starts at 0 and
only a strictly greater score replaces the best, so the earliest maximum
wins. -/
def fuzzyBest (device_name : String) (items : List BrowserItemRef) :
    Option BrowserItemRef × Rat :=
  items.foldl
    (fun (st : Option BrowserItemRef × Rat) item =>
      let ratio := fuzzyScore device_name item.name
      if ratio > st.2 then (some item, ratio) else st)
    (none, 0)

/-- Stable descending insertion used to model list.sort(key=ratio,
reverse=True): each element goes after every already-placed element of
greater or equal score. -/
def insertDesc (x : BrowserItemRef × Rat) :
    List (BrowserItemRef × Rat) → List (BrowserItemRef × Rat)
  | [] => [x]
  | y :: ys => if y.2 ≥ x.2 then y :: insertDesc x ys else x :: y :: ys

/-- Stable sort of the scored candidates, descending by score. -/
def sortDesc (l : List (BrowserItemRef × Rat)) : List (BrowserItemRef × Rat) :=
  l.foldl (fun acc x => insertDesc x acc) []

/-- The three shapes of a _fuzzy_search_browser result. -/
inductive FuzzyResult where
  | noItems (message : String)
  | found (item : BrowserItemRef) (confidence : Rat) (searched_count : Nat)
  | belowThreshold (message : String) (best_confidence : Rat)
      (top_matches : List (String × Rat)) (searched_count : Nat)
deriving DecidableEq

/-- _fuzzy_search_browser: collect the category's items, score them all,
return the best match when it meets the threshold, otherwise the top five
scored candidates. -/
def fuzzySearchCore (b : Browser) (device_name category_name : String)
    (threshold : Rat) : Except String FuzzyResult := do
  let items ← getAllBrowserItems b category_name 10
  if items.isEmpty then
    Except.ok (FuzzyResult.noItems
      ("No items found in category " ++ category_name))
  else
    let best := fuzzyBest device_name items
    match best.1 with
    | some m =>
        if best.2 ≥ threshold then
          Except.ok (FuzzyResult.found m best.2 items.length)
        else Except.ok (topFive items best.2)
    | none => Except.ok (topFive items best.2)
where
  /-- The top-5 diagnostic branch; the threshold is rendered by Lean's
  rational printer where Python prints a float. -/
  topFive (items : List BrowserItemRef) (best_ratio : Rat) : FuzzyResult :=
    let all_matches := items.map (fun item =>
      (item, fuzzyScore device_name item.name))
    let top := ((sortDesc all_matches).take 5).map (fun m => (m.1.name, m.2))
    FuzzyResult.belowThreshold
      ("No match found with confidence >= " ++ toString threshold)
      best_ratio top items.length

/-- The result dicts _fuzzy_search_browser builds from each outcome. -/
def fuzzyResultJson : FuzzyResult → Json
  | .noItems msg =>
      Json.obj [("found", Json.bool false), ("message", Json.str msg)]
  | .found m conf cnt =>
      Json.obj [("found", Json.bool true), ("match", itemRefJson m),
        ("confidence", Json.num conf), ("searched_count", jNat cnt)]
  | .belowThreshold msg best top cnt =>
      Json.obj [("found", Json.bool false), ("message", Json.str msg),
        ("best_confidence", Json.num best),
        ("top_matches", Json.arr (top.map (fun p =>
          Json.obj [("name", Json.str p.1), ("confidence", Json.num p.2)]))),
        ("searched_count", jNat cnt)]

/-- _fuzzy_search_browser as the dispatcher calls it. -/
def fuzzySearchBrowser (b : Browser) (device_name category_name : String)
    (threshold : Rat) : Except String Json :=
  (fuzzySearchCore b device_name category_name threshold).map fuzzyResultJson

/-- _load_browser_item: track bounds check, URI search, select the track,
let the host load the item. -/
def loadBrowserItem (host : Host) (song : Song) (track_index : Int)
    (item_uri : String) : Except String (Song × Json) := do
  let track ← trackGuard song track_index
  match findItemByUri host.browser item_uri with
  | none =>
      Except.error ("Browser item with URI '" ++ item_uri ++ "' not found")
  | some item =>
      let song2 := { song with selected_track := some track_index.toNat }
      let song3 := host.loadItem song2 item
      Except.ok (song3, Json.obj [
        ("loaded", Json.bool true), ("item_name", Json.str item.name),
        ("track_name", Json.str track.name), ("uri", Json.str item_uri)])

/-- _load_device_by_name: track bounds check, fuzzy search with the default
0.6 threshold, then load the match by URI. -/
def loadDeviceByName (host : Host) (song : Song) (track_index : Int)
    (device_name category_name : String) : Except String (Song × Json) := do
  let track ← trackGuard song track_index
  let search ← fuzzySearchCore host.browser device_name category_name (3/5)
  match search with
  | .noItems msg =>
      Except.ok (song, Json.obj [("loaded", Json.bool false),
        ("error", Json.str msg), ("top_matches", Json.arr [])])
  | .belowThreshold msg _ top _ =>
      Except.ok (song, Json.obj [("loaded", Json.bool false),
        ("error", Json.str msg),
        ("top_matches", Json.arr (top.map (fun p =>
          Json.obj [("name", Json.str p.1), ("confidence", Json.num p.2)])))])
  | .found m conf _ =>
      match findItemByUri host.browser m.uri with
      | none =>
          Except.error ("Browser item with URI '" ++ m.uri ++ "' not found")
      | some item =>
          let song2 := { song with selected_track := some track_index.toNat }
          let song3 := host.loadItem song2 item
          Except.ok (song3, Json.obj [
            ("loaded", Json.bool true), ("device_name", Json.str m.name),
            ("searched_name", Json.str device_name),
            ("confidence", Json.num conf),
            ("track_name", Json.str track.name),
            ("track_index", jInt track_index), ("uri", Json.str m.uri)])

/-- The routing-type dict of _get_track_routing_options. -/
def routingTypeJson (rt : RoutingType) : Json :=
  Json.obj [("display_name", Json.str rt.display_name),
    ("category", optStrJson rt.category)]

/-- The monitoring_names map with its "Unknown" default. -/
def monitoringStateName (s : Int) : String :=
  if s = 0 then "In" else if s = 1 then "Auto"
  else if s = 2 then "Off" else "Unknown"

/-- _get_track_routing_options. -/
def getTrackRoutingOptions (song : Song) (track_index : Int) :
    Except String Json := do
  let track ← trackGuard song track_index
  Except.ok (Json.obj [
    ("track_index", jInt track_index),
    ("track_name", Json.str track.name),
    ("output_routing", Json.obj [
      ("current_type",
        optStrJson (track.output_routing_type.map (·.display_name))),
      ("current_channel",
        optStrJson (track.output_routing_channel.map (·.display_name))),
      ("available_types",
        Json.arr (track.available_output_routing_types.map routingTypeJson)),
      ("available_channels",
        Json.arr (track.available_output_routing_channels.map (fun ch =>
          Json.obj [("display_name", Json.str ch.display_name)])))]),
    ("input_routing", Json.obj [
      ("current_type",
        optStrJson (track.input_routing_type.map (·.display_name))),
      ("current_channel",
        optStrJson (track.input_routing_channel.map (·.display_name))),
      ("available_types",
        Json.arr (track.available_input_routing_types.map routingTypeJson)),
      ("available_channels",
        Json.arr (track.available_input_routing_channels.map (fun ch =>
          Json.obj [("display_name", Json.str ch.display_name)])))]),
    ("monitoring", Json.obj [
      ("current_state", jInt track.current_monitoring_state),
      ("current_state_name",
        Json.str (monitoringStateName track.current_monitoring_state))])])

/-- _set_track_output_routing: find the type case-insensitively, set it,
optionally set a channel when one of that name exists (the available
channel list is read back from the same track object; any host-side
refresh after the type change is not modelled). -/
def setTrackOutputRouting (song : Song) (track_index : Int)
    (routing_type_name : String) (channel_name : Option String) :
    Except String (Song × Json) := do
  let track ← trackGuard song track_index
  match track.available_output_routing_types.find?
      (fun rt => rt.display_name.toLower = routing_type_name.toLower) with
  | none =>
      Except.error ("Output routing type '" ++ routing_type_name ++
        "' not found. Available: " ++ String.intercalate ", "
          (track.available_output_routing_types.map (·.display_name)))
  | some routing_type =>
      let track2 := { track with output_routing_type := some routing_type }
      let track3 :=
        match channel_name with
        | some chn =>
            if chn ≠ "" then
              match track2.available_output_routing_channels.find?
                  (fun ch => ch.display_name.toLower = chn.toLower) with
              | some channel =>
                  { track2 with output_routing_channel := some channel }
              | none => track2
            else track2
        | none => track2
      Except.ok (setTrack song track_index track3, Json.obj [
        ("track_index", jInt track_index),
        ("track_name", Json.str track3.name),
        ("output_routing_type", Json.str routing_type.display_name),
        ("output_routing_channel",
          optStrJson (track3.output_routing_channel.map (·.display_name)))])

/-- _set_track_input_routing, the input twin of the above. -/
def setTrackInputRouting (song : Song) (track_index : Int)
    (routing_type_name : String) (channel_name : Option String) :
    Except String (Song × Json) := do
  let track ← trackGuard song track_index
  match track.available_input_routing_types.find?
      (fun rt => rt.display_name.toLower = routing_type_name.toLower) with
  | none =>
      Except.error ("Input routing type '" ++ routing_type_name ++
        "' not found. Available: " ++ String.intercalate ", "
          (track.available_input_routing_types.map (·.display_name)))
  | some routing_type =>
      let track2 := { track with input_routing_type := some routing_type }
      let track3 :=
        match channel_name with
        | some chn =>
            if chn ≠ "" then
              match track2.available_input_routing_channels.find?
                  (fun ch => ch.display_name.toLower = chn.toLower) with
              | some channel =>
                  { track2 with input_routing_channel := some channel }
              | none => track2
            else track2
        | none => track2
      Except.ok (setTrack song track_index track3, Json.obj [
        ("track_index", jInt track_index),
        ("track_name", Json.str track3.name),
        ("input_routing_type", Json.str routing_type.display_name),
        ("input_routing_channel",
          optStrJson (track3.input_routing_channel.map (·.display_name)))])

/-! ### The command dispatcher (_process_command) -/

/-- A decoded command: the type name and the params dict. -/
structure Command where
  type : String
  params : List (String × Json)

/-- command.get("type", "") and command.get("params", \x7b\x7d) on a parsed
JSON object (a non-string type or non-dict params leads to an error
Response in the source by other routes; the claims only exercise
well-formed commands). -/
def commandOfFields (fields : List (String × Json)) : Command :=
  { type :=
      match fields.lookup "type" with
      | some (Json.str s) => s
      | _ => ""
    params :=
      match fields.lookup "params" with
      | some (Json.obj f) => f
      | _ => [] }

/-- One wire Response: the dict starts as status success with an empty
result; an error sets status and message, leaving result in place. -/
structure Response where
  status : String
  result : Json
  message : Option String

/-- A success Response carrying a handler result. -/
def successResponse (r : Json) : Response :=
  { status := "success", result := r, message := none }

/-- An error Response; the initial empty result dict stays. -/
def errorResponse (m : String) : Response :=
  { status := "error", result := Json.obj [], message := some m }

/-- The Response of a direct handler call under the outer try of
_process_command. -/
def directResponse : Except String Json → Response
  | .ok r => successResponse r
  | .error m => errorResponse m

/-- The main-thread command list of _process_command (lines 234-243): these
are the privileged commands scheduled onto the owner thread. -/
def privilegedCommands : List String :=
  ["create_midi_track", "create_audio_track", "delete_track",
   "duplicate_track", "set_track_name", "set_track_volume", "set_track_pan",
   "arm_track", "mute_track", "solo_track", "set_track_color",
   "create_clip", "add_notes_to_clip", "set_clip_name",
   "set_tempo", "fire_clip", "stop_clip",
   "start_playback", "stop_playback", "load_browser_item",
   "get_all_browser_items", "fuzzy_search_browser", "load_device_by_name",
   "set_device_parameter",
   "get_track_routing_options", "set_track_output_routing",
   "set_track_input_routing", "set_track_monitoring"]

/-- The closure main_thread_task: dispatch to the chosen handler with the
parameter defaults of the source, catching any exception into an error
outcome put on the response queue. A handler error leaves the song as it
was (every modelled handler checks before it writes); a type none of the
branches names leaves result = None. -/
def mainThreadTask (host : Host) (song : Song) (c : Command) :
    Song × Except String Json :=
  let params := c.params
  let lift : Except String (Song × Json) → Song × Except String Json :=
    fun r =>
      match r with
      | .ok (s2, j) => (s2, Except.ok j)
      | .error m => (song, Except.error m)
  let liftRead : Except String Json → Song × Except String Json :=
    fun r => (song, r)
  if c.type = "create_midi_track" then
    lift (createMidiTrack host song (getIntParam params "index" (-1)))
  else if c.type = "create_audio_track" then
    lift (createAudioTrack host song (getIntParam params "index" (-1)))
  else if c.type = "delete_track" then
    lift (deleteTrack song (getIntParam params "track_index" 0))
  else if c.type = "duplicate_track" then
    lift (duplicateTrack host song (getIntParam params "track_index" 0))
  else if c.type = "set_track_volume" then
    lift (setTrackVolume song (getIntParam params "track_index" 0)
      (getNumParam params "volume" (17/20)))
  else if c.type = "set_track_pan" then
    lift (setTrackPan song (getIntParam params "track_index" 0)
      (getNumParam params "pan" 0))
  else if c.type = "arm_track" then
    lift (armTrack song (getIntParam params "track_index" 0)
      (getTruthyParam params "armed" true))
  else if c.type = "mute_track" then
    lift (muteTrack song (getIntParam params "track_index" 0)
      (getTruthyParam params "muted" true))
  else if c.type = "solo_track" then
    lift (soloTrack song (getIntParam params "track_index" 0)
      (getTruthyParam params "soloed" true))
  else if c.type = "set_track_color" then
    lift (setTrackColor song (getIntParam params "track_index" 0)
      (pyInt (getNumParam params "color_index" 0)))
  else if c.type = "set_track_name" then
    lift (setTrackName song (getIntParam params "track_index" 0)
      (getStrParam params "name" ""))
  else if c.type = "create_clip" then
    lift (createClip host song (getIntParam params "track_index" 0)
      (getIntParam params "clip_index" 0) (getNumParam params "length" 4))
  else if c.type = "add_notes_to_clip" then
    lift (addNotesToClip song (getIntParam params "track_index" 0)
      (getIntParam params "clip_index" 0) (getArrParam params "notes"))
  else if c.type = "set_clip_name" then
    lift (setClipName song (getIntParam params "track_index" 0)
      (getIntParam params "clip_index" 0) (getStrParam params "name" ""))
  else if c.type = "set_tempo" then
    lift (setTempo song (getNumParam params "tempo" 120))
  else if c.type = "fire_clip" then
    lift (fireClip song (getIntParam params "track_index" 0)
      (getIntParam params "clip_index" 0))
  else if c.type = "stop_clip" then
    lift (stopClip song (getIntParam params "track_index" 0)
      (getIntParam params "clip_index" 0))
  else if c.type = "start_playback" then
    lift (startPlayback song)
  else if c.type = "stop_playback" then
    lift (stopPlayback song)
  else if c.type = "load_instrument_or_effect" then
    -- The branch of line 321 calls self._load_instrument_or_effect, a
    -- method the class does not define, so it would raise AttributeError;
    -- it is unreachable because the name is not in privilegedCommands.
    (song, Except.error attributeErrorMsg)
  else if c.type = "load_browser_item" then
    lift (loadBrowserItem host song (getIntParam params "track_index" 0)
      (getStrParam params "item_uri" ""))
  else if c.type = "get_all_browser_items" then
    liftRead (getAllBrowserItemsJson host.browser
      (getStrParam params "category_name" "audio_effects")
      (getIntParam params "max_depth" 10))
  else if c.type = "fuzzy_search_browser" then
    liftRead (fuzzySearchBrowser host.browser
      (getStrParam params "device_name" "")
      (getStrParam params "category_name" "audio_effects")
      (getNumParam params "threshold" (3/5)))
  else if c.type = "load_device_by_name" then
    lift (loadDeviceByName host song (getIntParam params "track_index" 0)
      (getStrParam params "device_name" "")
      (getStrParam params "category_name" "audio_effects"))
  else if c.type = "set_device_parameter" then
    lift (setDeviceParameter host song (getIntParam params "track_index" 0)
      (getIntParam params "device_index" 0)
      (getStrParam params "parameter_name" "")
      (getNumParam params "value" 0))
  else if c.type = "get_track_routing_options" then
    liftRead (getTrackRoutingOptions song (getIntParam params "track_index" 0))
  else if c.type = "set_track_output_routing" then
    lift (setTrackOutputRouting song (getIntParam params "track_index" 0)
      (getStrParam params "routing_type_name" "")
      (getOptStrParam params "channel_name"))
  else if c.type = "set_track_input_routing" then
    lift (setTrackInputRouting song (getIntParam params "track_index" 0)
      (getStrParam params "routing_type_name" "")
      (getOptStrParam params "channel_name"))
  else if c.type = "set_track_monitoring" then
    lift (setTrackMonitoring song (getIntParam params "track_index" 0)
      (getIntParam params "monitoring_state" 1))
  else (song, Except.ok Json.null)

/-- The fixed upper bound of the wait on the response queue:
response_queue.get(timeout=10.0) at line 383, in seconds. -/
def QUEUE_GET_TIMEOUT : Rat := 10

/-- The error Response of the queue.Empty branch. -/
def timeoutResponse : Response :=
  errorResponse "Timeout waiting for operation to complete"

/-- The Response _process_command assembles from a completed main-thread
task outcome. -/
def taskResponse : Except String Json → Response
  | .ok r => successResponse r
  | .error m => errorResponse m

/-- _process_command. The two scheduling facts outside the program text are
explicit arguments: onOwner says the call is already on the owner thread
(schedule_message raises AssertionError and the task runs synchronously,
line 377-379); ranWithin gives the time at which the owner thread ran the
scheduled closure, none meaning it never ran. The worker receives the task
outcome when the task ran synchronously or within QUEUE_GET_TIMEOUT
seconds; otherwise queue.get raises queue.Empty and the timeout Response is
returned (lines 381-391). -/
def processCommand (host : Host) (onOwner : Bool) (ranWithin : Option Rat)
    (song : Song) (c : Command) : Song × Response :=
  if c.type = "get_session_info" then
    (song, successResponse (getSessionInfo song))
  else if c.type = "get_track_info" then
    (song, directResponse (getTrackInfo song
      (getIntParam c.params "track_index" 0)))
  else if c.type = "get_device_parameters" then
    (song, directResponse (getDeviceParameters host song
      (getIntParam c.params "track_index" 0)
      (getIntParam c.params "device_index" 0)))
  else if privilegedCommands.contains c.type then
    if onOwner then
      ((mainThreadTask host song c).1, taskResponse (mainThreadTask host song c).2)
    else
      match ranWithin with
      | some t =>
          if t ≤ QUEUE_GET_TIMEOUT then
            ((mainThreadTask host song c).1,
             taskResponse (mainThreadTask host song c).2)
          else ((mainThreadTask host song c).1, timeoutResponse)
      | none => (song, timeoutResponse)
  else if c.type = "get_browser_item" then
    (song, directResponse (host.browserRead "get_browser_item" c.params))
  else if c.type = "get_browser_categories" then
    -- self._get_browser_categories does not exist: AttributeError, caught
    -- by the outer except of _process_command into an error Response.
    (song, errorResponse attributeErrorMsg)
  else if c.type = "get_browser_items" then
    -- self._get_browser_items does not exist either.
    (song, errorResponse attributeErrorMsg)
  else if c.type = "get_browser_tree" then
    (song, directResponse (host.browserRead "get_browser_tree" c.params))
  else if c.type = "get_browser_items_at_path" then
    (song, directResponse
      (host.browserRead "get_browser_items_at_path" c.params))
  else (song, errorResponse ("Unknown command: " ++ c.type))

/-! ### The per-connection receive loop (_handle_client) -/

/-- A UTF-8 continuation byte, of the form 10xxxxxx. -/
def utf8IsCont (b : Nat) : Bool := 128 ≤ b && b < 192

/-- Decoding one UTF-8 character off the front of a byte string: the
character and the remaining bytes, or none for an invalid lead byte, a
missing or malformed continuation byte (in particular a byte string cut
off inside a multi-byte character), an overlong form, a surrogate code
point, or a code point beyond U+10FFFF. -/
def utf8DecodeOne : List Nat → Option (Char × List Nat)
  | [] => none
  | b0 :: more =>
      if b0 < 128 then some (Char.ofNat b0, more)
      else if 194 ≤ b0 && b0 ≤ 223 then
        match more with
        | b1 :: more2 =>
            if utf8IsCont b1 then
              some (Char.ofNat ((b0 - 192) * 64 + (b1 - 128)), more2)
            else none
        | [] => none
      else if 224 ≤ b0 && b0 ≤ 239 then
        match more with
        | b1 :: b2 :: more2 =>
            let code := (b0 - 224) * 4096 + (b1 - 128) * 64 + (b2 - 128)
            if utf8IsCont b1 && utf8IsCont b2 && 2048 ≤ code &&
                (code < 55296 || 57343 < code) then
              some (Char.ofNat code, more2)
            else none
        | _ => none
      else if 240 ≤ b0 && b0 ≤ 244 then
        match more with
        | b1 :: b2 :: b3 :: more2 =>
            let code := (b0 - 240) * 262144 + (b1 - 128) * 4096 +
              (b2 - 128) * 64 + (b3 - 128)
            if utf8IsCont b1 && utf8IsCont b2 && utf8IsCont b3 &&
                65536 ≤ code && code ≤ 1114111 then
              some (Char.ofNat code, more2)
            else none
        | _ => none
      else none

/-- The decoding loop: one character at a time until the bytes run out.
The fuel only drives the recursion; every character consumes at least one
byte, so fuel equal to the byte count never runs out. -/
def utf8DecodeLoop : Nat → List Nat → Option (List Char)
  | _, [] => some []
  | 0, _ :: _ => none
  | fuel + 1, b0 :: more =>
      match utf8DecodeOne (b0 :: more) with
      | none => none
      | some (c, rest) => (utf8DecodeLoop fuel rest).map (fun cs => c :: cs)

/-- Strict UTF-8 decoding of a byte string, modelling data.decode('utf-8')
at line 153 of __init__.py: some gives the decoded text, none stands for
UnicodeDecodeError. -/
def utf8Decode (bs : List Nat) : Option (List Char) :=
  utf8DecodeLoop bs.length bs

/-- The UTF-8 encoding of one character. -/
def utf8EncodeChar (c : Char) : List Nat :=
  let n := c.toNat
  if n < 128 then [n]
  else if n < 2048 then [192 + n / 64, 128 + n % 64]
  else if n < 65536 then [224 + n / 4096, 128 + n / 64 % 64, 128 + n % 64]
  else [240 + n / 262144, 128 + n / 4096 % 64, 128 + n / 64 % 64,
    128 + n % 64]

/-- The UTF-8 encoding of a text: the byte string a peer sends to make the
worker read that text. -/
def utf8Encode (s : List Char) : List Nat := (s.map utf8EncodeChar).flatten

/-- The error Response the outer except of _handle_client sends when the
parsed document is not a dict and command.get raises. -/
def attributeErrorResponse : Response := errorResponse attributeErrorMsg

/-- The error Response the outer except of _handle_client sends when
data.decode('utf-8') at line 153 raises UnicodeDecodeError (str(e) is
abstracted to the exception's name, as for AttributeError). -/
def unicodeDecodeErrorResponse : Response := errorResponse "UnicodeDecodeError"

/-- The per-connection loop of _handle_client as a function of the sequence
of recv results, each a byte string. An empty recv means the peer closed
and the loop breaks. Otherwise the chunk is decoded as UTF-8 (line 153): a
chunk that is not valid UTF-8 — e.g. one cut off inside a multi-byte
character — raises UnicodeDecodeError before the buffer is extended, the
outer except writes an error Response and, UnicodeDecodeError being a
ValueError, line 200 does not break: the loop continues with the chunk's
bytes lost. A decoded chunk extends the text buffer; a buffer that parses
as a JSON document clears the buffer and produces exactly one Response; one
that does not raises ValueError in json.loads, which keeps the buffer and
continues. The scheduling oracle gives the owner-thread facts for the n-th
processed command. Returns the final song, the leftover text buffer and the
Responses written, in order. -/
def handleClient (host : Host) (oracle : Nat → Bool × Option Rat) :
    Nat → Song → List Char → List (List Nat) → Song × List Char × List Response
  | _, song, buffer, [] => (song, buffer, [])
  | n, song, buffer, chunk :: rest =>
      if chunk.isEmpty then (song, buffer, [])
      else
        match utf8Decode chunk with
        | none =>
            let cont := handleClient host oracle n song buffer rest
            (cont.1, cont.2.1, unicodeDecodeErrorResponse :: cont.2.2)
        | some text =>
            let buf := buffer ++ text
            match PyJson.jsonLoads buf with
            | none => handleClient host oracle n song buf rest
            | some (Json.obj fields) =>
                let pr := processCommand host (oracle n).1 (oracle n).2 song
                  (commandOfFields fields)
                let cont := handleClient host oracle (n + 1) pr.1 [] rest
                (cont.1, cont.2.1, pr.2 :: cont.2.2)
            | some _ => (song, [], [attributeErrorResponse])

end AbletonMCP

namespace MCPServer

/-!
Model of MCP_Server/server.py: the chunked receive loop, the per-command
timeouts of send_command, and the reconnect loop of get_ableton_connection.
-/

/-- The state-modifying command list of send_command (lines 103-109). -/
def isModifyingCommand (t : String) : Bool :=
  ["create_midi_track", "create_audio_track", "set_track_name",
   "create_clip", "add_notes_to_clip", "set_clip_name",
   "set_tempo", "fire_clip", "stop_clip", "set_device_parameter",
   "start_playback", "stop_playback", "load_instrument_or_effect",
   "set_track_output_routing", "set_track_input_routing",
   "set_track_monitoring"].contains t

/-- The socket timeout send_command configures before receiving
(line 124): 15 s for state-modifying commands, 10 s for the rest. -/
def commandDeadline (t : String) : Rat :=
  if isModifyingCommand t then 15 else 10

/-- The sock.settimeout(15.0) receive_full_response performs first thing
(line 48), before any recv. -/
def RECEIVE_LOOP_TIMEOUT : Rat := 15

/-- The part of the client socket state the timeout claims concern. -/
structure ClientSock where
  timeout : Rat

/-- One result of sock.recv in the receive loop: a data chunk (empty
meaning the peer closed) or the socket.timeout raised once the configured
timeout elapses with no data. An exhausted event list behaves as a timeout,
since a configured finite timeout guarantees recv eventually raises. -/
inductive RecvEvent where
  | chunk (data : String)
  | timeout

/-- The code after the receive loop of receive_full_response (lines 80-90):
with data accumulated, return it if it parses, otherwise raise on the
incomplete JSON; with nothing accumulated, raise. -/
def receiveTail (acc : String) : Except String String :=
  if acc = "" then Except.error "No data received"
  else if (PyJson.jsonLoadsStr acc).isSome then Except.ok acc
  else Except.error "Incomplete JSON response received"

/-- The while loop of receive_full_response (lines 51-75): append each
chunk and return as soon as the accumulated bytes parse as one complete
JSON document; an empty recv with nothing yet accumulated raises, an empty
recv after data breaks to the tail handling, a timeout breaks to the tail
handling. -/
def recvLoop (acc : String) : List RecvEvent → Except String String
  | [] => receiveTail acc
  | RecvEvent.timeout :: _ => receiveTail acc
  | RecvEvent.chunk d :: rest =>
      if d = "" then
        if acc = "" then
          Except.error "Connection closed before receiving any data"
        else receiveTail acc
      else
        let acc2 := acc ++ d
        if (PyJson.jsonLoadsStr acc2).isSome then Except.ok acc2
        else recvLoop acc2 rest

/-- receive_full_response: set the socket timeout to 15 s, then run the
loop. -/
def receiveFullResponse (sock : ClientSock) (events : List RecvEvent) :
    ClientSock × Except String String :=
  ({ sock with timeout := RECEIVE_LOOP_TIMEOUT }, recvLoop "" events)

/-- The socket timeout in force while the receive loop of a send_command
call runs: send_command sets the per-command deadline (line 125), then
receive_full_response overrides it before any recv (line 48). -/
def recvTimeoutInEffect (command_type : String) : Rat :=
  (receiveFullResponse { timeout := commandDeadline command_type } []).1.timeout

/-- The retry budget of get_ableton_connection (line 193). -/
def CONNECT_MAX_ATTEMPTS : Nat := 3

/-- The delay between connection attempts, time.sleep(1.0) at line 223, in
seconds. -/
def CONNECT_RETRY_DELAY : Rat := 1

/-- What the world does with one connection attempt: the transport connect
fails; or it succeeds but the validating round trip of
send_command("get_session_info") raises; or both succeed. -/
inductive AttemptOutcome where
  | connectFail
  | validateFail
  | ok
deriving DecidableEq

/-- Result of the reconnect loop: which attempt's connection was returned,
how many attempts ran, how many inter-attempt sleeps of
CONNECT_RETRY_DELAY elapsed, and the raised message when every attempt
failed. -/
structure ConnectOutcome where
  connection : Option Nat
  attempts : Nat
  sleeps : Nat
  error : Option String
deriving DecidableEq

/-- The message raised after exhausting the retries (line 228). -/
def connectFailMsg : String :=
  "Could not connect to Ableton. Make sure the Remote Script is running."

/-- The for-loop of get_ableton_connection in its Disconnected state
(lines 191-228): run attempts 1, 2, 3; a connect that fails, or connects
but fails the validating get_session_info round trip, counts as a failed
attempt and is followed by a 1 s sleep when attempts remain; the first
fully validated attempt returns its connection; exhaustion raises. -/
def connectFrom (world : Nat → AttemptOutcome) :
    Nat → Nat → Nat → Nat → ConnectOutcome
  | _, 0, a, s =>
      { connection := none, attempts := a, sleeps := s,
        error := some connectFailMsg }
  | attempt, remaining + 1, a, s =>
      match world attempt with
      | AttemptOutcome.ok =>
          { connection := some attempt, attempts := a + 1, sleeps := s,
            error := none }
      | _ =>
          if remaining = 0 then
            { connection := none, attempts := a + 1, sleeps := s,
              error := some connectFailMsg }
          else connectFrom world (attempt + 1) remaining (a + 1) (s + 1)

/-- get_ableton_connection with no cached connection. -/
def getAbletonConnection (world : Nat → AttemptOutcome) : ConnectOutcome :=
  connectFrom world 1 CONNECT_MAX_ATTEMPTS 0 0

end MCPServer

namespace HandleClientErrors

/-!
Model of the exception handling of _handle_client (lines 180-201): the
outer except around one loop iteration.
-/

/-- The exceptions that can reach the outer except of _handle_client,
classified the way its code and the claims distinguish them. -/
inductive PyExc where
  | valueError (msg : String)
  | typeError (msg : String)
  | attributeError (msg : String)
  | connectionLost (msg : String)
deriving DecidableEq

/-- The isinstance(e, ValueError) test of line 200 (UnicodeDecodeError is a
ValueError subclass and lands here too). -/
def PyExc.isValueError : PyExc → Bool
  | .valueError _ => true
  | _ => false

/-- Whether the exception is a transport-level failure (socket error,
reset, broken pipe) — the distinction the specification draws. -/
def PyExc.isTransport : PyExc → Bool
  | .connectionLost _ => true
  | _ => false

/-- What one iteration of the handler loop does after its except block. -/
inductive LoopAction where
  | continueLoop
  | breakLoop
deriving DecidableEq

/-- The except block of lines 180-201 as a function of the caught exception
and of whether writing the error Response back succeeded: the error
Response is sent if possible; a failed send breaks at once; after a
successful send the loop continues only for a ValueError and breaks for
every other exception. Returns whether an error Response went out and what
the loop does next. -/
def clientExceptionStep (e : PyExc) (errorSendOk : Bool) :
    Bool × LoopAction :=
  if errorSendOk then
    if e.isValueError then (true, LoopAction.continueLoop)
    else (true, LoopAction.breakLoop)
  else (false, LoopAction.breakLoop)

end HandleClientErrors

namespace Fixtures

open AbletonMCP

/-!
Concrete host and song values used by the witness theorems.
-/

/-- A loadable leaf device node. -/
def deviceNode (name uri : String) : BrowserNode :=
  BrowserNode.node name uri true true []

/-- A browser whose audio_effects category holds exactly the three
candidates of the fuzzy-match scenario, in the order the traversal
collects them. -/
def demoBrowser : Browser :=
  { instruments := BrowserNode.node "Instruments" "query:Instruments" false false []
    sounds := BrowserNode.node "Sounds" "query:Sounds" false false []
    drums := BrowserNode.node "Drums" "query:Drums" false false []
    audio_effects := BrowserNode.node "Audio Effects" "query:AudioFx" false false
      [deviceNode "Compressor" "query:Compressor",
       deviceNode "Glue Compressor" "query:GlueCompressor",
       deviceNode "EQ Eight" "query:EQEight"]
    midi_effects := BrowserNode.node "MIDI Effects" "query:MidiFx" false false [] }

/-- A device parameter whose value 3/10 differs from anything the demo
writes, so before/after values are distinguishable. -/
def demoParam : DeviceParameter :=
  { name := "Threshold", value := 3/10, min := 0, max := 1, is_enabled := true }

/-- A demo device. -/
def demoDevice : Device :=
  { name := "Glue Compressor", class_name := "audio_effect",
    class_display_name := "Glue Compressor", can_have_drum_pads := false,
    can_have_chains := false, parameters := [demoParam] }

/-- A demo track. -/
def demoTrack : Track :=
  { name := "Bass", has_audio_input := true, has_midi_input := false,
    mute := false, solo := false, arm := false, volume := 17/20,
    panning := 0, color_index := 0, clip_slots := [⟨none⟩],
    devices := [demoDevice],
    available_output_routing_types := [⟨"Master", none⟩],
    output_routing_type := some ⟨"Master", none⟩,
    available_output_routing_channels := [], output_routing_channel := none,
    available_input_routing_types := [], input_routing_type := none,
    available_input_routing_channels := [], input_routing_channel := none,
    current_monitoring_state := 1 }

/-- A demo song with one track. -/
def demoSong : Song :=
  { tracks := [demoTrack], return_track_count := 2, tempo := 120,
    signature_numerator := 4, signature_denominator := 4,
    is_playing := false, master_volume := 17/20, master_panning := 0,
    selected_track := none }

/-- A concrete host: the demo browser with inert collaborator functions. -/
def demoHost : Host :=
  { browser := demoBrowser
    loadItem := fun s _ => s
    strForValue := fun _ _ => ""
    browserRead := fun _ _ => Except.ok Json.null
    newMidiTrack := demoTrack
    newAudioTrack := demoTrack
    newClip := fun len =>
      { name := "", length := len, is_playing := false,
        is_recording := false, notes := [] }
    dupTrack := fun t => t }

/-- A complete set_track_name command whose name parameter is the single
non-ASCII character U+00E9, which UTF-8 encodes on two bytes (195, 169). -/
def accentDoc : String :=
  "\x7b\"type\": \"set_track_name\", \"params\": \x7b\"track_index\": 0, \"name\": \"é\"\x7d\x7d"

/-- The 70-byte UTF-8 encoding of accentDoc; its two-byte character spans
byte offsets 65 and 66, so a split at offset 66 cuts it in half. -/
def accentBytes : List Nat := utf8Encode accentDoc.data

end Fixtures

namespace AbletonMCP

/-- Field access on a JSON object result. -/
def jGet : Json → String → Option Json
  | Json.obj fields, k => fields.lookup k
  | _, _ => none

end AbletonMCP

/-! ## Helper lemmas -/

namespace AbletonMCP

theorem error_bind {a b : Type} (m : String) (f : a → Except String b) :
    (Except.error m >>= f : Except String b) = Except.error m := rfl

theorem ok_bind {a b : Type} (v : a) (f : a → Except String b) :
    (Except.ok v >>= f : Except String b) = f v := rfl

/-- The shared bounds check fails exactly as the source raises when the
index is negative or at least the track count. -/
theorem trackGuard_oor (song : Song) (ti : Int)
    (h : ti < 0 ∨ (song.tracks.length : Int) ≤ ti) :
    trackGuard song ti = Except.error "Track index out of range" := by
  unfold trackGuard; rw [if_pos h]

/-- An integer-valued track_index parameter reads back as itself. -/
theorem getIntParam_of_lookup (params : List (String × Json)) (name : String)
    (d t : Int) (h : params.lookup name = some (Json.num (t : Rat))) :
    getIntParam params name d = t := by
  unfold getIntParam; rw [h]; simp

/-- Reduction of processCommand on a privileged command. -/
theorem processCommand_privileged (host : Host) (onOwner : Bool)
    (ranWithin : Option Rat) (song : Song) (c : Command)
    (h1 : c.type ≠ "get_session_info") (h2 : c.type ≠ "get_track_info")
    (h3 : c.type ≠ "get_device_parameters")
    (hpriv : privilegedCommands.contains c.type = true) :
    processCommand host onOwner ranWithin song c =
      (if onOwner then
        ((mainThreadTask host song c).1,
         taskResponse (mainThreadTask host song c).2)
      else
        match ranWithin with
        | some t =>
            if t ≤ QUEUE_GET_TIMEOUT then
              ((mainThreadTask host song c).1,
               taskResponse (mainThreadTask host song c).2)
            else ((mainThreadTask host song c).1, timeoutResponse)
        | none => (song, timeoutResponse)) := by
  unfold processCommand
  rw [if_neg h1, if_neg h2, if_neg h3, if_pos hpriv]

/-- A privileged command whose main-thread task errors without touching the
song leaves the song alone in every scheduling situation and produces the
error Response whenever the task outcome reaches the worker in time. -/
theorem processCommand_of_task_error (host : Host) (onOwner : Bool)
    (ranWithin : Option Rat) (song : Song) (c : Command) (m : String)
    (h1 : c.type ≠ "get_session_info") (h2 : c.type ≠ "get_track_info")
    (h3 : c.type ≠ "get_device_parameters")
    (hpriv : privilegedCommands.contains c.type = true)
    (htask : mainThreadTask host song c = (song, Except.error m)) :
    (processCommand host onOwner ranWithin song c).1 = song ∧
    ((onOwner = true ∨ ∃ w, ranWithin = some w ∧ w ≤ QUEUE_GET_TIMEOUT) →
      (processCommand host onOwner ranWithin song c).2 = errorResponse m) := by
  rw [processCommand_privileged host onOwner ranWithin song c h1 h2 h3 hpriv]
  cases onOwner with
  | true => simp [htask, taskResponse]
  | false =>
      cases ranWithin with
      | none =>
          refine ⟨rfl, ?_⟩
          rintro (h | ⟨w, hw, _⟩) <;> simp_all
      | some t =>
          by_cases ht : t ≤ QUEUE_GET_TIMEOUT
          · simp [ht, htask, taskResponse]
          · refine ⟨by simp [ht, htask], ?_⟩
            rintro (h | ⟨w, hw, hw2⟩)
            · simp_all
            · exact absurd (Option.some.inj hw ▸ hw2) ht

end AbletonMCP

namespace AbletonMCP

/-! ### Out-of-range behaviour of every track-indexed handler -/

theorem getTrackInfo_oor (song : Song) (ti : Int)
    (h : ti < 0 ∨ (song.tracks.length : Int) ≤ ti) :
    getTrackInfo song ti = Except.error "Track index out of range" := by
  simp [getTrackInfo, trackGuard_oor _ _ h, error_bind]

theorem getDeviceParameters_oor (host : Host) (song : Song) (ti di : Int)
    (h : ti < 0 ∨ (song.tracks.length : Int) ≤ ti) :
    getDeviceParameters host song ti di =
      Except.error "Track index out of range" := by
  simp [getDeviceParameters, trackGuard_oor _ _ h, error_bind]

theorem deleteTrack_oor (song : Song) (ti : Int)
    (h : ti < 0 ∨ (song.tracks.length : Int) ≤ ti) :
    deleteTrack song ti = Except.error "Track index out of range" := by
  simp [deleteTrack, trackGuard_oor _ _ h, error_bind]

theorem duplicateTrack_oor (host : Host) (song : Song) (ti : Int)
    (h : ti < 0 ∨ (song.tracks.length : Int) ≤ ti) :
    duplicateTrack host song ti = Except.error "Track index out of range" := by
  simp [duplicateTrack, trackGuard_oor _ _ h, error_bind]

theorem setTrackVolume_oor (song : Song) (ti : Int) (v : Rat)
    (h : ti < 0 ∨ (song.tracks.length : Int) ≤ ti) :
    setTrackVolume song ti v = Except.error "Track index out of range" := by
  simp [setTrackVolume, trackGuard_oor _ _ h, error_bind]

theorem setTrackPan_oor (song : Song) (ti : Int) (v : Rat)
    (h : ti < 0 ∨ (song.tracks.length : Int) ≤ ti) :
    setTrackPan song ti v = Except.error "Track index out of range" := by
  simp [setTrackPan, trackGuard_oor _ _ h, error_bind]

theorem armTrack_oor (song : Song) (ti : Int) (b : Bool)
    (h : ti < 0 ∨ (song.tracks.length : Int) ≤ ti) :
    armTrack song ti b = Except.error "Track index out of range" := by
  simp [armTrack, trackGuard_oor _ _ h, error_bind]

theorem muteTrack_oor (song : Song) (ti : Int) (b : Bool)
    (h : ti < 0 ∨ (song.tracks.length : Int) ≤ ti) :
    muteTrack song ti b = Except.error "Track index out of range" := by
  simp [muteTrack, trackGuard_oor _ _ h, error_bind]

theorem soloTrack_oor (song : Song) (ti : Int) (b : Bool)
    (h : ti < 0 ∨ (song.tracks.length : Int) ≤ ti) :
    soloTrack song ti b = Except.error "Track index out of range" := by
  simp [soloTrack, trackGuard_oor _ _ h, error_bind]

theorem setTrackColor_oor (song : Song) (ti ci : Int)
    (h : ti < 0 ∨ (song.tracks.length : Int) ≤ ti) :
    setTrackColor song ti ci = Except.error "Track index out of range" := by
  simp [setTrackColor, trackGuard_oor _ _ h, error_bind]

theorem setTrackName_oor (song : Song) (ti : Int) (nm : String)
    (h : ti < 0 ∨ (song.tracks.length : Int) ≤ ti) :
    setTrackName song ti nm = Except.error "Track index out of range" := by
  simp [setTrackName, trackGuard_oor _ _ h, error_bind]

theorem createClip_oor (host : Host) (song : Song) (ti ci : Int) (len : Rat)
    (h : ti < 0 ∨ (song.tracks.length : Int) ≤ ti) :
    createClip host song ti ci len =
      Except.error "Track index out of range" := by
  simp [createClip, trackGuard_oor _ _ h, error_bind]

theorem addNotesToClip_oor (song : Song) (ti ci : Int) (notes : List Json)
    (h : ti < 0 ∨ (song.tracks.length : Int) ≤ ti) :
    addNotesToClip song ti ci notes =
      Except.error "Track index out of range" := by
  simp [addNotesToClip, trackGuard_oor _ _ h, error_bind]

theorem setClipName_oor (song : Song) (ti ci : Int) (nm : String)
    (h : ti < 0 ∨ (song.tracks.length : Int) ≤ ti) :
    setClipName song ti ci nm = Except.error "Track index out of range" := by
  simp [setClipName, trackGuard_oor _ _ h, error_bind]

theorem fireClip_oor (song : Song) (ti ci : Int)
    (h : ti < 0 ∨ (song.tracks.length : Int) ≤ ti) :
    fireClip song ti ci = Except.error "Track index out of range" := by
  simp [fireClip, trackGuard_oor _ _ h, error_bind]

theorem stopClip_oor (song : Song) (ti ci : Int)
    (h : ti < 0 ∨ (song.tracks.length : Int) ≤ ti) :
    stopClip song ti ci = Except.error "Track index out of range" := by
  simp [stopClip, trackGuard_oor _ _ h, error_bind]

theorem loadBrowserItem_oor (host : Host) (song : Song) (ti : Int) (uri : String)
    (h : ti < 0 ∨ (song.tracks.length : Int) ≤ ti) :
    loadBrowserItem host song ti uri =
      Except.error "Track index out of range" := by
  simp [loadBrowserItem, trackGuard_oor _ _ h, error_bind]

theorem loadDeviceByName_oor (host : Host) (song : Song) (ti : Int)
    (dn cn : String) (h : ti < 0 ∨ (song.tracks.length : Int) ≤ ti) :
    loadDeviceByName host song ti dn cn =
      Except.error "Track index out of range" := by
  simp [loadDeviceByName, trackGuard_oor _ _ h, error_bind]

theorem setDeviceParameter_oor (host : Host) (song : Song) (ti di : Int)
    (pn : String) (v : Rat) (h : ti < 0 ∨ (song.tracks.length : Int) ≤ ti) :
    setDeviceParameter host song ti di pn v =
      Except.error "Track index out of range" := by
  simp [setDeviceParameter, trackGuard_oor _ _ h, error_bind]

theorem getTrackRoutingOptions_oor (song : Song) (ti : Int)
    (h : ti < 0 ∨ (song.tracks.length : Int) ≤ ti) :
    getTrackRoutingOptions song ti =
      Except.error "Track index out of range" := by
  simp [getTrackRoutingOptions, trackGuard_oor _ _ h, error_bind]

theorem setTrackOutputRouting_oor (song : Song) (ti : Int) (rt : String)
    (ch : Option String) (h : ti < 0 ∨ (song.tracks.length : Int) ≤ ti) :
    setTrackOutputRouting song ti rt ch =
      Except.error "Track index out of range" := by
  simp [setTrackOutputRouting, trackGuard_oor _ _ h, error_bind]

theorem setTrackInputRouting_oor (song : Song) (ti : Int) (rt : String)
    (ch : Option String) (h : ti < 0 ∨ (song.tracks.length : Int) ≤ ti) :
    setTrackInputRouting song ti rt ch =
      Except.error "Track index out of range" := by
  simp [setTrackInputRouting, trackGuard_oor _ _ h, error_bind]

theorem setTrackMonitoring_oor (song : Song) (ti ms : Int)
    (h : ti < 0 ∨ (song.tracks.length : Int) ≤ ti) :
    setTrackMonitoring song ti ms =
      Except.error "Track index out of range" := by
  simp [setTrackMonitoring, trackGuard_oor _ _ h, error_bind]

/-- The commands of _process_command that read a track_index parameter. -/
def trackIndexCommands : List String :=
  ["get_track_info", "get_device_parameters", "delete_track",
   "duplicate_track", "set_track_volume", "set_track_pan", "arm_track",
   "mute_track", "solo_track", "set_track_color", "set_track_name",
   "create_clip", "add_notes_to_clip", "set_clip_name", "fire_clip",
   "stop_clip", "load_browser_item", "load_device_by_name",
   "set_device_parameter", "get_track_routing_options",
   "set_track_output_routing", "set_track_input_routing",
   "set_track_monitoring"]

end AbletonMCP

open AbletonMCP in
/-- C2: for every command of _process_command that takes a track_index
(the 23 names of trackIndexCommands, set_track_volume among them), a
track_index that is negative or at least the current track count leaves the
whole song state untouched — no track, tempo or playback field changes, in
every scheduling situation — and, whenever the task outcome reaches the
worker (always, for the directly executed commands), the Response is the
error whose message is "Track index out of range". -/
theorem track_index_out_of_range_rejected
    (cmd : String) (hcmd : cmd ∈ trackIndexCommands)
    (host : Host) (onOwner : Bool) (ranWithin : Option Rat) (song : Song)
    (params : List (String × Json)) (t : Int)
    (hp : params.lookup "track_index" = some (Json.num (t : Rat)))
    (hout : t < 0 ∨ (song.tracks.length : Int) ≤ t) :
    (processCommand host onOwner ranWithin song ⟨cmd, params⟩).1 = song ∧
    ((onOwner = true ∨ ∃ w, ranWithin = some w ∧ w ≤ QUEUE_GET_TIMEOUT) →
      (processCommand host onOwner ranWithin song ⟨cmd, params⟩).2 =
        errorResponse "Track index out of range") := by
  have hti : getIntParam params "track_index" 0 = t :=
    getIntParam_of_lookup params "track_index" 0 t hp
  simp only [trackIndexCommands, List.mem_cons, List.not_mem_nil, or_false] at hcmd
  rcases hcmd with rfl|rfl|rfl|rfl|rfl|rfl|rfl|rfl|rfl|rfl|rfl|rfl|rfl|rfl|rfl|rfl|rfl|rfl|rfl|rfl|rfl|rfl|rfl
  · exact ⟨rfl, fun _ => by
      simp [processCommand, getTrackInfo_oor _ _ hout, hti, directResponse,
        errorResponse]⟩
  · exact ⟨rfl, fun _ => by
      simp [processCommand, getDeviceParameters_oor _ _ _ _ hout, hti,
        directResponse, errorResponse]⟩
  · refine processCommand_of_task_error _ _ _ _ _ _ ?_ ?_ ?_ ?_ ?_ <;>
      first | rfl | simp [mainThreadTask, hti, deleteTrack_oor _ _ hout]
  · refine processCommand_of_task_error _ _ _ _ _ _ ?_ ?_ ?_ ?_ ?_ <;>
      first | rfl | simp [mainThreadTask, hti, duplicateTrack_oor _ _ _ hout]
  · refine processCommand_of_task_error _ _ _ _ _ _ ?_ ?_ ?_ ?_ ?_ <;>
      first | rfl | simp [mainThreadTask, hti, setTrackVolume_oor _ _ _ hout]
  · refine processCommand_of_task_error _ _ _ _ _ _ ?_ ?_ ?_ ?_ ?_ <;>
      first | rfl | simp [mainThreadTask, hti, setTrackPan_oor _ _ _ hout]
  · refine processCommand_of_task_error _ _ _ _ _ _ ?_ ?_ ?_ ?_ ?_ <;>
      first | rfl | simp [mainThreadTask, hti, armTrack_oor _ _ _ hout]
  · refine processCommand_of_task_error _ _ _ _ _ _ ?_ ?_ ?_ ?_ ?_ <;>
      first | rfl | simp [mainThreadTask, hti, muteTrack_oor _ _ _ hout]
  · refine processCommand_of_task_error _ _ _ _ _ _ ?_ ?_ ?_ ?_ ?_ <;>
      first | rfl | simp [mainThreadTask, hti, soloTrack_oor _ _ _ hout]
  · refine processCommand_of_task_error _ _ _ _ _ _ ?_ ?_ ?_ ?_ ?_ <;>
      first | rfl | simp [mainThreadTask, hti, setTrackColor_oor _ _ _ hout]
  · refine processCommand_of_task_error _ _ _ _ _ _ ?_ ?_ ?_ ?_ ?_ <;>
      first | rfl | simp [mainThreadTask, hti, setTrackName_oor _ _ _ hout]
  · refine processCommand_of_task_error _ _ _ _ _ _ ?_ ?_ ?_ ?_ ?_ <;>
      first | rfl | simp [mainThreadTask, hti, createClip_oor _ _ _ _ _ hout]
  · refine processCommand_of_task_error _ _ _ _ _ _ ?_ ?_ ?_ ?_ ?_ <;>
      first | rfl | simp [mainThreadTask, hti, addNotesToClip_oor _ _ _ _ hout]
  · refine processCommand_of_task_error _ _ _ _ _ _ ?_ ?_ ?_ ?_ ?_ <;>
      first | rfl | simp [mainThreadTask, hti, setClipName_oor _ _ _ _ hout]
  · refine processCommand_of_task_error _ _ _ _ _ _ ?_ ?_ ?_ ?_ ?_ <;>
      first | rfl | simp [mainThreadTask, hti, fireClip_oor _ _ _ hout]
  · refine processCommand_of_task_error _ _ _ _ _ _ ?_ ?_ ?_ ?_ ?_ <;>
      first | rfl | simp [mainThreadTask, hti, stopClip_oor _ _ _ hout]
  · refine processCommand_of_task_error _ _ _ _ _ _ ?_ ?_ ?_ ?_ ?_ <;>
      first | rfl | simp [mainThreadTask, hti, loadBrowserItem_oor _ _ _ _ hout]
  · refine processCommand_of_task_error _ _ _ _ _ _ ?_ ?_ ?_ ?_ ?_ <;>
      first
        | rfl
        | simp [mainThreadTask, hti, loadDeviceByName_oor _ _ _ _ _ hout]
  · refine processCommand_of_task_error _ _ _ _ _ _ ?_ ?_ ?_ ?_ ?_ <;>
      first
        | rfl
        | simp [mainThreadTask, hti, setDeviceParameter_oor _ _ _ _ _ _ hout]
  · refine processCommand_of_task_error _ _ _ _ _ _ ?_ ?_ ?_ ?_ ?_ <;>
      first
        | rfl
        | simp [mainThreadTask, hti, getTrackRoutingOptions_oor _ _ hout]
  · refine processCommand_of_task_error _ _ _ _ _ _ ?_ ?_ ?_ ?_ ?_ <;>
      first
        | rfl
        | simp [mainThreadTask, hti, setTrackOutputRouting_oor _ _ _ _ hout]
  · refine processCommand_of_task_error _ _ _ _ _ _ ?_ ?_ ?_ ?_ ?_ <;>
      first
        | rfl
        | simp [mainThreadTask, hti, setTrackInputRouting_oor _ _ _ _ hout]
  · refine processCommand_of_task_error _ _ _ _ _ _ ?_ ?_ ?_ ?_ ?_ <;>
      first | rfl | simp [mainThreadTask, hti, setTrackMonitoring_oor _ _ _ hout]

open AbletonMCP Fixtures in
/-- Witness for C2: set_track_volume with track_index 5 against the
one-track demo song leaves the song unchanged and answers the out-of-range
error. -/
theorem track_index_out_of_range_rejected_witness :
    (processCommand demoHost false (some 0) demoSong
      ⟨"set_track_volume",
       [("track_index", Json.num 5), ("volume", Json.num (3/2))]⟩).1
      = demoSong ∧
    (processCommand demoHost false (some 0) demoSong
      ⟨"set_track_volume",
       [("track_index", Json.num 5), ("volume", Json.num (3/2))]⟩).2
      = errorResponse "Track index out of range" := by
  have h := track_index_out_of_range_rejected "set_track_volume" (by decide)
    demoHost false (some 0) demoSong
    [("track_index", Json.num 5), ("volume", Json.num (3/2))] 5
    (by norm_num [List.lookup]) (by norm_num [demoSong, demoTrack])
  exact ⟨h.1, h.2 (Or.inr ⟨0, rfl, by norm_num [QUEUE_GET_TIMEOUT]⟩)⟩

open AbletonMCP in
/-- C3: set_track_volume clamps the requested volume into [0, 1] before
writing it — for every in-range track the stored volume and the reported
result.volume equal max 0 (min 1 v) — and in particular the command
set_track_volume with track_index 0 and volume 1.5 against any song with at
least one track succeeds with result.volume = 1.0. -/
theorem set_track_volume_clamps :
    (∀ (song : Song) (ti : Int) (v : Rat) (song2 : Song) (j : Json),
      setTrackVolume song ti v = Except.ok (song2, j) →
      ∃ tr : Track, pyListGet song2.tracks ti = Except.ok tr ∧
        tr.volume = max 0 (min 1 v) ∧
        j = Json.obj [("track_index", jInt ti),
          ("volume", Json.num (max 0 (min 1 v)))]) ∧
    (∀ (host : Host) (onOwner : Bool) (song : Song), song.tracks ≠ [] →
      (processCommand host onOwner (some 0) song
        ⟨"set_track_volume",
         [("track_index", Json.num 0), ("volume", Json.num (3/2))]⟩).2 =
      successResponse (Json.obj [("track_index", Json.num 0),
        ("volume", Json.num 1)])) := by
  constructor
  · intro song ti v song2 j h
    unfold setTrackVolume at h
    cases htg : trackGuard song ti with
    | error m => rw [htg, error_bind] at h; exact Except.noConfusion h
    | ok track =>
        rw [htg, ok_bind] at h
        have hrange : ¬(ti < 0 ∨ (song.tracks.length : Int) ≤ ti) := by
          intro hc
          rw [trackGuard_oor song ti hc] at htg
          exact Except.noConfusion htg
        push_neg at hrange
        obtain ⟨h0, hlen⟩ := hrange
        rw [Except.ok.injEq, Prod.mk.injEq] at h
        obtain ⟨hs, hj⟩ := h
        refine ⟨{ track with volume := max 0 (min 1 v) }, ?_, rfl, hj.symm⟩
        have hnat : ti.toNat < song.tracks.length := by omega
        rw [← hs]
        simp [setTrack, pyListGet, not_lt.mpr h0, List.length_set,
          List.getElem?_set_eq_of_lt _ hnat]
        exact ⟨h0, hlen⟩
  · intro host onOwner song hne
    obtain ⟨t0, rest, htr⟩ : ∃ t0 rest, song.tracks = t0 :: rest := by
      cases h : song.tracks with
      | nil => exact absurd h hne
      | cons a l => exact ⟨a, l, rfl⟩
    rw [processCommand_privileged host onOwner (some 0) song _
      (by decide) (by decide) (by decide) (by decide)]
    have htask : mainThreadTask host song
        ⟨"set_track_volume",
         [("track_index", Json.num 0), ("volume", Json.num (3/2))]⟩ =
        (setTrack song 0 { t0 with volume := 1 },
         Except.ok (Json.obj [("track_index", Json.num 0),
           ("volume", Json.num 1)])) := by
      have hmax : max (0:Rat) (min 1 (3/2)) = 1 := by norm_num
      have hguard : ¬((rest.length : Int) + 1 ≤ 0) := by omega
      simp [mainThreadTask, getIntParam, getNumParam, List.lookup,
        setTrackVolume, trackGuard, htr, pyListGet, ok_bind, hmax, jInt,
        hguard]
    cases onOwner with
    | true => simp [htask, taskResponse, successResponse]
    | false =>
        have h10 : (0:Rat) ≤ QUEUE_GET_TIMEOUT := by
          norm_num [QUEUE_GET_TIMEOUT]
        simp [h10, htask, taskResponse, successResponse]

open AbletonMCP Fixtures in
/-- Witness for C3: the 1.5-volume command against the demo song succeeds
with result.volume = 1. -/
theorem set_track_volume_clamps_witness :
    (processCommand demoHost false (some 0) demoSong
      ⟨"set_track_volume",
       [("track_index", Json.num 0), ("volume", Json.num (3/2))]⟩).2 =
    successResponse (Json.obj [("track_index", Json.num 0),
      ("volume", Json.num 1)]) :=
  set_track_volume_clamps.2 demoHost false demoSong (by simp [demoSong])

namespace AbletonMCP

/-- A nonempty byte string never decodes to the empty text: every success
branch of utf8Decode on a nonempty input prepends a character. -/
theorem utf8Decode_some_nil (bs : List Nat) (h : utf8Decode bs = some []) :
    bs = [] := by
  cases bs with
  | nil => rfl
  | cons b0 more =>
      exfalso
      unfold utf8Decode at h
      simp only [List.length_cons] at h
      rw [utf8DecodeLoop] at h
      cases ho : utf8DecodeOne (b0 :: more) with
      | none => simp [ho] at h
      | some cr =>
          obtain ⟨c, rest⟩ := cr
          simp [ho] at h

/-- One loop iteration in which the chunk decodes and the accumulated
buffer parses as an object: the buffer is cleared, the command processed,
exactly one Response is emitted, and the loop continues on the remaining
chunks. -/
theorem handleClient_parse_step (host : Host) (oracle : Nat → Bool × Option Rat)
    (n : Nat) (song : Song) (buffer : List Char) (chunk : List Nat)
    (text : List Char) (rest : List (List Nat)) (fields : List (String × Json))
    (hne : chunk ≠ [])
    (hd : utf8Decode chunk = some text)
    (hp : PyJson.jsonLoads (buffer ++ text) = some (Json.obj fields)) :
    handleClient host oracle n song buffer (chunk :: rest) =
      ((handleClient host oracle (n + 1)
         (processCommand host (oracle n).1 (oracle n).2 song
           (commandOfFields fields)).1 [] rest).1,
       (handleClient host oracle (n + 1)
         (processCommand host (oracle n).1 (oracle n).2 song
           (commandOfFields fields)).1 [] rest).2.1,
       (processCommand host (oracle n).1 (oracle n).2 song
         (commandOfFields fields)).2 ::
       (handleClient host oracle (n + 1)
         (processCommand host (oracle n).1 (oracle n).2 song
           (commandOfFields fields)).1 [] rest).2.2) := by
  have hie : chunk.isEmpty = false := by
    cases chunk with
    | nil => exact absurd rfl hne
    | cons a l => rfl
  simp [handleClient, hie, hd, hp]

/-- One loop iteration in which the chunk decodes but the accumulated
buffer does not yet parse: json.loads raises ValueError, the buffer is
kept, no Response is emitted. -/
theorem handleClient_buffer_step (host : Host) (oracle : Nat → Bool × Option Rat)
    (n : Nat) (song : Song) (buffer : List Char) (chunk : List Nat)
    (text : List Char) (rest : List (List Nat)) (hne : chunk ≠ [])
    (hd : utf8Decode chunk = some text)
    (hp : PyJson.jsonLoads (buffer ++ text) = none) :
    handleClient host oracle n song buffer (chunk :: rest) =
      handleClient host oracle n song (buffer ++ text) rest := by
  have hie : chunk.isEmpty = false := by
    cases chunk with
    | nil => exact absurd rfl hne
    | cons a l => rfl
  simp [handleClient, hie, hd, hp]

/-- One loop iteration whose chunk is not valid UTF-8: data.decode raises
UnicodeDecodeError before the buffer is extended, the outer except writes
an error Response and, the exception being a ValueError, the loop continues
with the buffer unchanged and the chunk's bytes lost. -/
theorem handleClient_decode_error_step (host : Host)
    (oracle : Nat → Bool × Option Rat) (n : Nat) (song : Song)
    (buffer : List Char) (chunk : List Nat) (rest : List (List Nat))
    (hne : chunk ≠ []) (hd : utf8Decode chunk = none) :
    handleClient host oracle n song buffer (chunk :: rest) =
      ((handleClient host oracle n song buffer rest).1,
       (handleClient host oracle n song buffer rest).2.1,
       unicodeDecodeErrorResponse ::
         (handleClient host oracle n song buffer rest).2.2) := by
  have hie : chunk.isEmpty = false := by
    cases chunk with
    | nil => exact absurd rfl hne
    | cons a l => rfl
  simp [handleClient, hie, hd]

/-- An empty recv means the peer closed: the loop breaks at once. -/
theorem handleClient_close_step (host : Host) (oracle : Nat → Bool × Option Rat)
    (n : Nat) (song : Song) (buffer : List Char) (rest : List (List Nat)) :
    handleClient host oracle n song buffer ([] :: rest) = (song, buffer, []) := by
  simp [handleClient]

end AbletonMCP

open AbletonMCP in
/-- C5: a privileged command whose scheduled closure never fulfills the
pending call makes the worker's bounded wait (QUEUE_GET_TIMEOUT = 10
seconds) expire: the command's Response is the status-error timeout
message, the worker does not crash (processCommand is total and returns
exactly that Response), and the connection loop goes on serving the
following command, whose Response is produced as usual. -/
theorem privileged_never_fulfilled_times_out
    (host : Host) (song : Song) (c : Command)
    (h1 : c.type ≠ "get_session_info") (h2 : c.type ≠ "get_track_info")
    (h3 : c.type ≠ "get_device_parameters")
    (hpriv : privilegedCommands.contains c.type = true) :
    QUEUE_GET_TIMEOUT = 10 ∧
    processCommand host false none song c =
      (song, errorResponse "Timeout waiting for operation to complete") ∧
    (∀ (oracle : Nat → Bool × Option Rat) (n : Nat) (b1 b2 : List Nat)
       (d1 d2 : List Char) (f1 f2 : List (String × Json)),
       oracle n = (false, none) →
       utf8Decode b1 = some d1 →
       utf8Decode b2 = some d2 →
       PyJson.jsonLoads d1 = some (Json.obj f1) →
       PyJson.jsonLoads d2 = some (Json.obj f2) →
       commandOfFields f1 = c →
       b1 ≠ [] → b2 ≠ [] →
       handleClient host oracle n song [] [b1, b2] =
         ((processCommand host (oracle (n+1)).1 (oracle (n+1)).2 song
            (commandOfFields f2)).1, [],
          [errorResponse "Timeout waiting for operation to complete",
           (processCommand host (oracle (n+1)).1 (oracle (n+1)).2 song
             (commandOfFields f2)).2])) := by
  have hto : processCommand host false none song c =
      (song, errorResponse "Timeout waiting for operation to complete") := by
    rw [processCommand_privileged host false none song c h1 h2 h3 hpriv]
    rfl
  refine ⟨rfl, hto, ?_⟩
  intro oracle n b1 b2 d1 d2 f1 f2 ho hd1 hd2 hp1 hp2 hcf hne1 hne2
  have hpc : processCommand host (oracle n).1 (oracle n).2 song
      (commandOfFields f1) =
      (song, errorResponse "Timeout waiting for operation to complete") := by
    rw [ho, hcf]; exact hto
  rw [handleClient_parse_step host oracle n song [] b1 d1 [b2] f1 hne1 hd1
    (by simpa using hp1), hpc]
  simp only
  rw [handleClient_parse_step host oracle (n+1) song [] b2 d2 [] f2 hne2 hd2
    (by simpa using hp2)]
  simp [handleClient]

open AbletonMCP Fixtures in
/-- Witness for C5: a set_tempo whose closure is never run times out and
the worker still serves a following start_playback (which, never run
either, times out too rather than hanging or crashing). -/
theorem privileged_never_fulfilled_times_out_witness :
    handleClient demoHost (fun _ => (false, none)) 0 demoSong []
      [utf8Encode "\x7b\"type\": \"set_tempo\", \"params\": \x7b\"tempo\": 140\x7d\x7d".data,
       utf8Encode "\x7b\"type\": \"start_playback\", \"params\": \x7b\x7d\x7d".data] =
      (demoSong, [],
       [errorResponse "Timeout waiting for operation to complete",
        errorResponse "Timeout waiting for operation to complete"]) := by
  have h := (privileged_never_fulfilled_times_out demoHost demoSong
      ⟨"set_tempo", [("tempo", Json.num 140)]⟩
      (by decide) (by decide) (by decide) (by decide)).2.2
    (fun _ => (false, none)) 0
    (utf8Encode "\x7b\"type\": \"set_tempo\", \"params\": \x7b\"tempo\": 140\x7d\x7d".data)
    (utf8Encode "\x7b\"type\": \"start_playback\", \"params\": \x7b\x7d\x7d".data)
    "\x7b\"type\": \"set_tempo\", \"params\": \x7b\"tempo\": 140\x7d\x7d".data
    "\x7b\"type\": \"start_playback\", \"params\": \x7b\x7d\x7d".data
    [("type", Json.str "set_tempo"),
     ("params", Json.obj [("tempo", Json.num 140)])]
    [("type", Json.str "start_playback"), ("params", Json.obj [])]
    rfl (by rfl) (by rfl) (by rfl) (by rfl) rfl (by decide) (by decide)
  rw [h]
  rfl

open AbletonMCP in
/-- C6: when scheduling is invoked from the owner thread itself —
schedule_message raises AssertionError and the except branch runs
main_thread_task directly — the closure executes immediately and
synchronously: whatever the executor oracle says (even that the queue is
never drained), the worker receives exactly the closure's one outcome and
its state effect, so it cannot deadlock on the undrained queue. -/
theorem reentrant_schedule_executes_synchronously
    (host : Host) (song : Song) (c : Command) (ranWithin : Option Rat)
    (h1 : c.type ≠ "get_session_info") (h2 : c.type ≠ "get_track_info")
    (h3 : c.type ≠ "get_device_parameters")
    (hpriv : privilegedCommands.contains c.type = true) :
    processCommand host true ranWithin song c =
      ((mainThreadTask host song c).1,
       taskResponse (mainThreadTask host song c).2) := by
  rw [processCommand_privileged host true ranWithin song c h1 h2 h3 hpriv]
  rfl

open AbletonMCP Fixtures in
/-- Witness for C6: an on-owner-thread set_tempo with a never-draining
queue still yields the task's own success Response. -/
theorem reentrant_schedule_executes_synchronously_witness :
    processCommand demoHost true none demoSong
      ⟨"set_tempo", [("tempo", Json.num 140)]⟩ =
      ((mainThreadTask demoHost demoSong
         ⟨"set_tempo", [("tempo", Json.num 140)]⟩).1,
       taskResponse (mainThreadTask demoHost demoSong
         ⟨"set_tempo", [("tempo", Json.num 140)]⟩).2) :=
  reentrant_schedule_executes_synchronously demoHost demoSong
    ⟨"set_tempo", [("tempo", Json.num 140)]⟩ none
    (by decide) (by decide) (by decide) (by decide)

open AbletonMCP Fixtures in
/-- C1 counterexample: the claim's any-byte-offset property is false. The
accentDoc command fed whole yields one success Response, but split at byte
offset 66 — between the two bytes of its U+00E9 character — it yields two
UnicodeDecodeError error Responses and no success: data.decode('utf-8') at
line 153 raises on each half, the outer except writes an error Response
each time and, UnicodeDecodeError being a ValueError, discards the half's
bytes and continues, so the command is never executed. -/
theorem chunked_framing_midcharacter_counterexample :
    ((handleClient demoHost (fun _ => (false, some 0)) 0 demoSong []
        [accentBytes.take 66, accentBytes.drop 66]).2.2.map Response.status =
      ["error", "error"]) ∧
    ((handleClient demoHost (fun _ => (false, some 0)) 0 demoSong []
        [accentBytes]).2.2.map Response.status = ["success"]) ∧
    handleClient demoHost (fun _ => (false, some 0)) 0 demoSong []
        [accentBytes.take 66, accentBytes.drop 66] ≠
      handleClient demoHost (fun _ => (false, some 0)) 0 demoSong []
        [accentBytes] := by
  have hs : (handleClient demoHost (fun _ => (false, some 0)) 0 demoSong []
      [accentBytes.take 66, accentBytes.drop 66]).2.2.map Response.status =
      ["error", "error"] := by
    with_unfolding_all rfl
  have hw : (handleClient demoHost (fun _ => (false, some 0)) 0 demoSong []
      [accentBytes]).2.2.map Response.status = ["success"] := by
    with_unfolding_all rfl
  refine ⟨hs, hw, fun h => ?_⟩
  rw [congrArg (fun p => p.2.2.map Response.status) h] at hs
  rw [hw] at hs
  exact absurd hs (by decide)

open AbletonMCP in
/-- C1 amended: the connection worker's buffering discipline, at byte
level. First, feeding one complete JSON command document in two nonempty
chunks split at any byte offset on a UTF-8 character boundary (both halves
decode) produces exactly the same single Response, final state and empty
buffer as feeding the whole byte sequence in one chunk. Second, a split at
the very end makes the second read a peer close, which changes nothing.
Third, a decodable chunk after which the accumulated buffer does not parse
keeps the buffer and emits nothing. Fourth, a decodable chunk after which
the buffer parses clears the buffer and processes the parsed object as one
Command with exactly one Response. Fifth, an undecodable chunk — a split
inside a multi-byte character — draws one UnicodeDecodeError error
Response, its bytes are lost, the buffer is unchanged and the loop
continues. -/
theorem chunked_framing_boundary_splits :
    (∀ (host : Host) (oracle : Nat → Bool × Option Rat) (n : Nat)
       (song : Song) (doc : List Char) (fields : List (String × Json))
       (b1 b2 : List Nat) (k : Nat),
       PyJson.jsonLoads doc = some (Json.obj fields) →
       (∀ j, j < doc.length →
         (PyJson.jsonLoads (doc.take j)).isNone = true) →
       0 < k → k ≤ doc.length →
       utf8Decode b1 = some (doc.take k) →
       utf8Decode b2 = some (doc.drop k) →
       utf8Decode (b1 ++ b2) = some doc →
       b1 ≠ [] → b2 ≠ [] →
       handleClient host oracle n song [] [b1, b2] =
         handleClient host oracle n song [] [b1 ++ b2]) ∧
    (∀ (host : Host) (oracle : Nat → Bool × Option Rat) (n : Nat)
       (song : Song) (buffer : List Char) (b : List Nat),
       handleClient host oracle n song buffer [b, []] =
         handleClient host oracle n song buffer [b]) ∧
    (∀ (host : Host) (oracle : Nat → Bool × Option Rat) (n : Nat)
       (song : Song) (buffer : List Char) (chunk : List Nat)
       (text : List Char) (rest : List (List Nat)),
       chunk ≠ [] →
       utf8Decode chunk = some text →
       PyJson.jsonLoads (buffer ++ text) = none →
       handleClient host oracle n song buffer (chunk :: rest) =
         handleClient host oracle n song (buffer ++ text) rest) ∧
    (∀ (host : Host) (oracle : Nat → Bool × Option Rat) (n : Nat)
       (song : Song) (buffer : List Char) (chunk : List Nat)
       (text : List Char) (rest : List (List Nat))
       (fields : List (String × Json)),
       chunk ≠ [] →
       utf8Decode chunk = some text →
       PyJson.jsonLoads (buffer ++ text) = some (Json.obj fields) →
       handleClient host oracle n song buffer (chunk :: rest) =
         ((handleClient host oracle (n + 1)
            (processCommand host (oracle n).1 (oracle n).2 song
              (commandOfFields fields)).1 [] rest).1,
          (handleClient host oracle (n + 1)
            (processCommand host (oracle n).1 (oracle n).2 song
              (commandOfFields fields)).1 [] rest).2.1,
          (processCommand host (oracle n).1 (oracle n).2 song
            (commandOfFields fields)).2 ::
          (handleClient host oracle (n + 1)
            (processCommand host (oracle n).1 (oracle n).2 song
              (commandOfFields fields)).1 [] rest).2.2)) ∧
    (∀ (host : Host) (oracle : Nat → Bool × Option Rat) (n : Nat)
       (song : Song) (buffer : List Char) (chunk : List Nat)
       (rest : List (List Nat)),
       chunk ≠ [] → utf8Decode chunk = none →
       handleClient host oracle n song buffer (chunk :: rest) =
         ((handleClient host oracle n song buffer rest).1,
          (handleClient host oracle n song buffer rest).2.1,
          unicodeDecodeErrorResponse ::
            (handleClient host oracle n song buffer rest).2.2)) := by
  refine ⟨?_, ?_, handleClient_buffer_step, handleClient_parse_step,
    handleClient_decode_error_step⟩
  · intro host oracle n song doc fields b1 b2 k hdoc hpre hk0 hk h1 h2 hw
      hb1 hb2
    have hwne : b1 ++ b2 ≠ [] := fun hh => hb1 (List.append_eq_nil.mp hh).1
    rw [handleClient_parse_step host oracle n song [] (b1 ++ b2) doc []
      fields hwne hw (by simpa using hdoc)]
    by_cases hkl : k = doc.length
    · subst hkl
      rw [List.drop_length] at h2
      exact absurd (utf8Decode_some_nil b2 h2) hb2
    · have hklt : k < doc.length := lt_of_le_of_ne hk hkl
      rw [handleClient_buffer_step host oracle n song [] b1 (doc.take k)
        [b2] hb1 h1
        (by
          simp only [List.nil_append]
          exact Option.isNone_iff_eq_none.mp (hpre k hklt))]
      rw [handleClient_parse_step host oracle n song ([] ++ doc.take k) b2
        (doc.drop k) [] fields hb2 h2
        (by rw [List.nil_append, List.take_append_drop]; exact hdoc)]
  · intro host oracle n song buffer b
    cases b with
    | nil => simp [handleClient]
    | cons b0 bs =>
        cases hd : utf8Decode (b0 :: bs) with
        | none => simp [handleClient, hd]
        | some text =>
            cases hp : PyJson.jsonLoads (buffer ++ text) with
            | none => simp [handleClient, hd, hp]
            | some v => cases v <;> simp [handleClient, hd, hp]

open AbletonMCP Fixtures in
/-- Witness for the amended C1: a set_tempo document's encoding split after
its tenth byte — an ASCII document, so every offset is a character
boundary — yields the same outcome as the whole byte sequence. -/
theorem chunked_framing_boundary_splits_witness :
    handleClient demoHost (fun _ => (false, some 0)) 0 demoSong []
      [utf8Encode ("\x7b\"type\": \"set_tempo\", \"params\": \x7b\"tempo\": 140\x7d\x7d".data.take 10),
       utf8Encode ("\x7b\"type\": \"set_tempo\", \"params\": \x7b\"tempo\": 140\x7d\x7d".data.drop 10)] =
    handleClient demoHost (fun _ => (false, some 0)) 0 demoSong []
      [utf8Encode ("\x7b\"type\": \"set_tempo\", \"params\": \x7b\"tempo\": 140\x7d\x7d".data.take 10) ++
       utf8Encode ("\x7b\"type\": \"set_tempo\", \"params\": \x7b\"tempo\": 140\x7d\x7d".data.drop 10)] :=
  chunked_framing_boundary_splits.1 demoHost (fun _ => (false, some 0)) 0
    demoSong
    "\x7b\"type\": \"set_tempo\", \"params\": \x7b\"tempo\": 140\x7d\x7d".data
    [("type", Json.str "set_tempo"),
     ("params", Json.obj [("tempo", Json.num 140)])]
    (utf8Encode ("\x7b\"type\": \"set_tempo\", \"params\": \x7b\"tempo\": 140\x7d\x7d".data.take 10))
    (utf8Encode ("\x7b\"type\": \"set_tempo\", \"params\": \x7b\"tempo\": 140\x7d\x7d".data.drop 10))
    10
    (by rfl) (by decide) (by decide) (by decide) (by rfl) (by rfl) (by rfl)
    (by decide) (by decide)

open AbletonMCP Difflib in
set_option maxRecDepth 100000 in
/-- C4: the fuzzy search scores a candidate by the SequenceMatcher ratio of
the lowercased strings, floored at 0.8 whenever the lowercase query occurs
in the lowercase candidate; and the query "glue compressor" against the
candidates Compressor, Glue Compressor, EQ Eight at threshold 0.6 finds
Glue Compressor with confidence 1, strictly above both other candidates'
scores, so the best match is unique. -/
theorem fuzzy_search_floor_and_scenario :
    (∀ query candidate : String,
       strIn query.toLower candidate.toLower = true →
       (4/5 : Rat) ≤ fuzzyScore query candidate) ∧
    (∀ query candidate : String,
       strIn query.toLower candidate.toLower = false →
       fuzzyScore query candidate =
         seqRatio query.toLower candidate.toLower) ∧
    fuzzySearchCore Fixtures.demoBrowser "glue compressor" "audio_effects"
        (3/5) =
      Except.ok (FuzzyResult.found
        ⟨"Glue Compressor", "query:GlueCompressor"⟩ 1 3) ∧
    fuzzyScore "glue compressor" "Compressor" < 1 ∧
    fuzzyScore "glue compressor" "EQ Eight" < 1 ∧
    fuzzyScore "glue compressor" "Glue Compressor" = 1 := by
  refine ⟨?_, ?_, by with_unfolding_all decide, by with_unfolding_all decide,
    by with_unfolding_all decide, by with_unfolding_all decide⟩
  · intro q c hsub
    simp only [fuzzyScore, hsub, if_true]
    exact le_max_right _ _
  · intro q c hsub
    simp only [fuzzyScore, hsub]
    simp

open AbletonMCP Difflib in
/-- Witness for C4: the substring floor applies to the query "glue
compressor" against the candidate "Glue Compressor". -/
theorem fuzzy_search_floor_and_scenario_witness :
    strIn "glue compressor".toLower "Glue Compressor".toLower = true ∧
    (4/5 : Rat) ≤ fuzzyScore "glue compressor" "Glue Compressor" :=
  ⟨by with_unfolding_all decide,
   fuzzy_search_floor_and_scenario.1 "glue compressor" "Glue Compressor"
     (by with_unfolding_all decide)⟩

open MCPServer in
/-- C7 counterexample: for the read-only command get_session_info,
send_command sets a 10 s socket timeout, but receive_full_response
overrides the socket timeout to 15 s before its first recv, so the timeout
the receive loop actually applies is 15 s, not the claimed 10 s. -/
theorem readonly_receive_timeout_overridden :
    isModifyingCommand "get_session_info" = false ∧
    commandDeadline "get_session_info" = 10 ∧
    recvTimeoutInEffect "get_session_info" = 15 ∧
    ¬ recvTimeoutInEffect "get_session_info" = 10 := by decide

open MCPServer in
/-- C7 amended: send_command picks the per-command deadline — 15 s for
state-mutating command names, 10 s otherwise — but the receive loop runs
with a flat 15 s socket timeout for every command, because
receive_full_response overrides the socket timeout before the first recv;
the loop itself accumulates each received chunk and returns as soon as the
accumulated data parses as one complete JSON document, hands the
accumulated data to the tail handling when the timeout elapses, and treats
a peer close as an error when nothing was received and as end of data
otherwise. -/
theorem receive_loop_behaviour :
    (∀ t : String, recvTimeoutInEffect t = 15) ∧
    (∀ t : String,
       commandDeadline t = if isModifyingCommand t then 15 else 10) ∧
    (∀ (acc d : String) (rest : List RecvEvent), d ≠ "" →
       (PyJson.jsonLoadsStr (acc ++ d)).isSome = true →
       recvLoop acc (RecvEvent.chunk d :: rest) = Except.ok (acc ++ d)) ∧
    (∀ (acc d : String) (rest : List RecvEvent), d ≠ "" →
       PyJson.jsonLoadsStr (acc ++ d) = none →
       recvLoop acc (RecvEvent.chunk d :: rest) = recvLoop (acc ++ d) rest) ∧
    (∀ (acc : String) (rest : List RecvEvent),
       recvLoop acc (RecvEvent.timeout :: rest) = receiveTail acc) ∧
    (∀ (acc : String) (rest : List RecvEvent),
       recvLoop acc (RecvEvent.chunk "" :: rest) =
         if acc = "" then
           Except.error "Connection closed before receiving any data"
         else receiveTail acc) := by
  refine ⟨fun t => rfl, fun t => rfl, ?_, ?_, fun acc rest => rfl, ?_⟩
  · intro acc d rest hne hp
    simp [recvLoop, hne, hp]
  · intro acc d rest hne hp
    simp [recvLoop, hne, hp]
  · intro acc rest
    simp [recvLoop]

open MCPServer in
/-- Witness for the amended C7: a response split in two chunks is
accumulated, and returned once the second chunk completes the document. -/
theorem receive_loop_behaviour_witness :
    recvLoop "" [RecvEvent.chunk "\x7b\"a\": 1", RecvEvent.chunk "\x7d"] =
      Except.ok "\x7b\"a\": 1\x7d" := by
  rw [receive_loop_behaviour.2.2.2.1 "" "\x7b\"a\": 1" [RecvEvent.chunk "\x7d"]
    (by decide) (by with_unfolding_all rfl)]
  rw [receive_loop_behaviour.2.2.1 ("" ++ "\x7b\"a\": 1") "\x7d" []
    (by decide) (by with_unfolding_all decide)]
  with_unfolding_all rfl

namespace MCPServer

/-- The reconnect loop inspects an attempt's outcome only through "did it
fully validate": two worlds agreeing on which attempts validate produce
identical outcomes. -/
theorem connectFrom_congr (world world' : Nat → AttemptOutcome)
    (h : ∀ i, world i = AttemptOutcome.ok ↔ world' i = AttemptOutcome.ok) :
    ∀ r a x y, connectFrom world a r x y = connectFrom world' a r x y := by
  intro r
  induction r with
  | zero => intro a x y; rfl
  | succ m ih =>
      intro a x y
      have ha := h a
      cases h1 : world a <;> cases h2 : world' a <;>
        rw [h1, h2] at ha <;>
        simp only [connectFrom, h1, h2] <;>
        first
          | rfl
          | exact absurd (ha.mp rfl) (by decide)
          | exact absurd (ha.mpr rfl) (by decide)
          | (by_cases hm : m = 0 <;> simp [hm, ih])

end MCPServer

open MCPServer in
/-- C8: from the Disconnected state, get_ableton_connection makes at most 3
connection attempts with one 1-second delay between consecutive attempts;
the first attempt whose transport connect and validating
get_session_info round trip both succeed returns that validated connection
with no error; a connect that cannot complete the round trip counts
exactly like a transport failure (outcomes depend only on which attempts
fully validate); and when none of the 3 attempts validates, the
connection-unavailable error is raised after 3 attempts and 2 sleeps. -/
theorem reconnect_bounded_validated_retries :
    CONNECT_MAX_ATTEMPTS = 3 ∧ CONNECT_RETRY_DELAY = 1 ∧
    (∀ world : Nat → AttemptOutcome,
       (getAbletonConnection world).attempts ≤ 3) ∧
    (∀ world : Nat → AttemptOutcome,
       (getAbletonConnection world).sleeps + 1 =
         (getAbletonConnection world).attempts) ∧
    (∀ world : Nat → AttemptOutcome, world 1 = AttemptOutcome.ok →
       getAbletonConnection world =
         { connection := some 1, attempts := 1, sleeps := 0, error := none }) ∧
    (∀ world : Nat → AttemptOutcome,
       world 1 ≠ AttemptOutcome.ok → world 2 = AttemptOutcome.ok →
       getAbletonConnection world =
         { connection := some 2, attempts := 2, sleeps := 1, error := none }) ∧
    (∀ world : Nat → AttemptOutcome,
       world 1 ≠ AttemptOutcome.ok → world 2 ≠ AttemptOutcome.ok →
       world 3 = AttemptOutcome.ok →
       getAbletonConnection world =
         { connection := some 3, attempts := 3, sleeps := 2, error := none }) ∧
    (∀ world : Nat → AttemptOutcome,
       (∀ i, 1 ≤ i → i ≤ 3 → world i ≠ AttemptOutcome.ok) →
       getAbletonConnection world =
         { connection := none, attempts := 3, sleeps := 2,
           error := some connectFailMsg }) ∧
    (∀ world world' : Nat → AttemptOutcome,
       (∀ i, world i = AttemptOutcome.ok ↔ world' i = AttemptOutcome.ok) →
       getAbletonConnection world = getAbletonConnection world') := by
  refine ⟨rfl, rfl, ?_, ?_, ?_, ?_, ?_, ?_, ?_⟩
  · intro world
    cases h1 : world 1 <;> cases h2 : world 2 <;> cases h3 : world 3 <;>
      simp [getAbletonConnection, CONNECT_MAX_ATTEMPTS, connectFrom, h1, h2, h3]
  · intro world
    cases h1 : world 1 <;> cases h2 : world 2 <;> cases h3 : world 3 <;>
      simp [getAbletonConnection, CONNECT_MAX_ATTEMPTS, connectFrom, h1, h2, h3]
  · intro world hw1
    simp [getAbletonConnection, CONNECT_MAX_ATTEMPTS, connectFrom, hw1]
  · intro world hw1 hw2
    cases h1 : world 1 <;>
      first
        | exact absurd h1 hw1
        | simp [getAbletonConnection, CONNECT_MAX_ATTEMPTS, connectFrom,
            h1, hw2]
  · intro world hw1 hw2 hw3
    cases h1 : world 1 <;> cases h2 : world 2 <;>
      first
        | exact absurd h1 hw1
        | exact absurd h2 hw2
        | simp [getAbletonConnection, CONNECT_MAX_ATTEMPTS, connectFrom,
            h1, h2, hw3]
  · intro world hall
    have h1 := hall 1 (by omega) (by omega)
    have h2 := hall 2 (by omega) (by omega)
    have h3 := hall 3 (by omega) (by omega)
    cases hh1 : world 1 <;> cases hh2 : world 2 <;> cases hh3 : world 3 <;>
      simp_all [getAbletonConnection, CONNECT_MAX_ATTEMPTS, connectFrom]
  · intro world world' hiff
    exact connectFrom_congr world world' hiff CONNECT_MAX_ATTEMPTS 1 0 0

open MCPServer in
/-- Witness for C8: a world in which every transport connect succeeds but
the validating round trip always fails exhausts all 3 attempts, sleeps
twice, and raises the connection-unavailable error. -/
theorem reconnect_bounded_validated_retries_witness :
    getAbletonConnection (fun _ => AttemptOutcome.validateFail) =
      { connection := none, attempts := 3, sleeps := 2,
        error := some connectFailMsg } :=
  reconnect_bounded_validated_retries.2.2.2.2.2.2.2.1
    (fun _ => AttemptOutcome.validateFail)
    (fun _ _ _ h => AttemptOutcome.noConfusion h)

namespace AbletonMCP

/-- A direct handler outcome always becomes a well-formed Response. -/
theorem directResponse_status (r : Except String Json) :
    (directResponse r).status = "success" ∨
    (directResponse r).status = "error" := by
  cases r <;> simp [directResponse, successResponse, errorResponse]

/-- A main-thread task outcome always becomes a well-formed Response. -/
theorem taskResponse_status (r : Except String Json) :
    (taskResponse r).status = "success" ∨
    (taskResponse r).status = "error" := by
  cases r <;> simp [taskResponse, successResponse, errorResponse]

/-- _process_command never raises: every command, on every scheduling
outcome, yields one Response whose status is success or error. -/
theorem processCommand_status (host : Host) (onOwner : Bool)
    (ranWithin : Option Rat) (song : Song) (c : Command) :
    (processCommand host onOwner ranWithin song c).2.status = "success" ∨
    (processCommand host onOwner ranWithin song c).2.status = "error" := by
  unfold processCommand
  repeat' split
  all_goals
    first
      | exact directResponse_status _
      | exact taskResponse_status _
      | exact Or.inl rfl
      | exact Or.inr rfl

end AbletonMCP

open HandleClientErrors in
/-- C9 counterexample: a TypeError is not a transport-level failure, yet
after the error Response is successfully written the worker still breaks
the loop (line 200: any non-ValueError breaks) — it does not continue
serving the connection as the claim states. -/
theorem nontransport_exception_still_stops_loop :
    (PyExc.typeError "x").isTransport = false ∧
    (clientExceptionStep (PyExc.typeError "x") true).1 = true ∧
    (clientExceptionStep (PyExc.typeError "x") true).2 =
      LoopAction.breakLoop ∧
    ¬ (clientExceptionStep (PyExc.typeError "x") true).2 =
        LoopAction.continueLoop := by
  decide

open AbletonMCP HandleClientErrors in
/-- C9 amended: per-command handler failures are absorbed inside
_process_command, which always returns one success-or-error Response, and
the receive loop keeps serving the connection after each parsed command;
an exception reaching _handle_client's outer handler gets the error
Response written whenever the write succeeds, but the loop then continues
exactly when the exception is a ValueError — every other exception,
transport-level or not, stops the loop, as does a failed error write. -/
theorem worker_error_handling_and_recovery :
    (∀ (e : PyExc) (sendOk : Bool),
       (clientExceptionStep e sendOk).2 = LoopAction.continueLoop ↔
         (e.isValueError = true ∧ sendOk = true)) ∧
    (∀ (e : PyExc) (sendOk : Bool),
       (clientExceptionStep e sendOk).1 = sendOk) ∧
    (∀ (host : Host) (onOwner : Bool) (ranWithin : Option Rat) (song : Song)
       (c : Command),
       (processCommand host onOwner ranWithin song c).2.status = "success" ∨
       (processCommand host onOwner ranWithin song c).2.status = "error") ∧
    (∀ (host : Host) (oracle : Nat → Bool × Option Rat) (n : Nat)
       (song : Song) (buffer : List Char) (chunk : List Nat)
       (text : List Char) (rest : List (List Nat))
       (fields : List (String × Json)),
       chunk ≠ [] →
       utf8Decode chunk = some text →
       PyJson.jsonLoads (buffer ++ text) = some (Json.obj fields) →
       handleClient host oracle n song buffer (chunk :: rest) =
         ((handleClient host oracle (n + 1)
            (processCommand host (oracle n).1 (oracle n).2 song
              (commandOfFields fields)).1 [] rest).1,
          (handleClient host oracle (n + 1)
            (processCommand host (oracle n).1 (oracle n).2 song
              (commandOfFields fields)).1 [] rest).2.1,
          (processCommand host (oracle n).1 (oracle n).2 song
            (commandOfFields fields)).2 ::
          (handleClient host oracle (n + 1)
            (processCommand host (oracle n).1 (oracle n).2 song
              (commandOfFields fields)).1 [] rest).2.2)) := by
  refine ⟨?_, ?_, processCommand_status, handleClient_parse_step⟩
  · intro e s
    cases e <;> cases s <;>
      simp [clientExceptionStep, PyExc.isValueError]
  · intro e s
    cases e <;> cases s <;>
      simp [clientExceptionStep, PyExc.isValueError]

open HandleClientErrors in
/-- Witness for the amended C9: a ValueError with a successful error write
continues the loop. -/
theorem worker_error_handling_and_recovery_witness :
    (clientExceptionStep (PyExc.valueError "bad payload") true).2 =
      LoopAction.continueLoop :=
  (worker_error_handling_and_recovery.1
    (PyExc.valueError "bad payload") true).mpr ⟨rfl, rfl⟩

open AbletonMCP in
/-- C10: in every successful set_device_parameter result the old_value
field is read from the parameter after the assignment, so it equals the
clamped value just written — old_value always equals new_value, both being
max(min_, min(max_, value)) for the case-insensitively matched parameter,
and the value from before the write is never reported. -/
theorem set_device_parameter_old_value_reads_back_clamped
    (host : Host) (song : Song) (ti di : Int) (pn : String)
    (v : Rat) (song2 : Song) (j : Json)
    (h : setDeviceParameter host song ti di pn v = Except.ok (song2, j)) :
    ∃ (track : Track) (device : Device) (p : DeviceParameter),
      trackGuard song ti = Except.ok track ∧
      deviceGuard track di = Except.ok device ∧
      device.parameters.find? (fun q => q.name.toLower = pn.toLower) = some p ∧
      jGet j "old_value" = some (Json.num (max p.min (min p.max v))) ∧
      jGet j "new_value" = some (Json.num (max p.min (min p.max v))) ∧
      jGet j "old_value" = jGet j "new_value" := by
  unfold setDeviceParameter at h
  cases htg : trackGuard song ti with
  | error m => rw [htg, error_bind] at h; exact Except.noConfusion h
  | ok track =>
      rw [htg, ok_bind] at h
      cases hdg : deviceGuard track di with
      | error m => rw [hdg, error_bind] at h; exact Except.noConfusion h
      | ok device =>
          rw [hdg, ok_bind] at h
          cases hf : device.parameters.find?
              (fun q => q.name.toLower = pn.toLower) with
          | none => rw [hf] at h; exact Except.noConfusion h
          | some p =>
              rw [hf] at h
              dsimp only at h
              rw [Except.ok.injEq, Prod.mk.injEq] at h
              obtain ⟨hs, hj⟩ := h
              refine ⟨track, device, p, rfl, hdg, hf, ?_, ?_, ?_⟩
              · rw [← hj]; rfl
              · rw [← hj]; rfl
              · rw [← hj]; rfl

open AbletonMCP Fixtures in
/-- Witness for C10: setting the demo device's Threshold (previously 3/10)
to 1.5 clamps to 1 and reports old_value = new_value = 1, not the 3/10
from before the write. -/
theorem set_device_parameter_old_value_witness :
    ∃ (track : Track) (device : Device) (p : DeviceParameter),
      trackGuard demoSong 0 = Except.ok track ∧
      deviceGuard track 0 = Except.ok device ∧
      device.parameters.find?
        (fun q => q.name.toLower = "threshold".toLower) = some p ∧
      jGet (Json.obj [("track_index", jInt 0), ("device_index", jInt 0),
        ("device_name", Json.str "Glue Compressor"),
        ("parameter_name", Json.str "Threshold"),
        ("old_value", Json.num 1), ("new_value", Json.num 1),
        ("value_string", Json.str "")]) "old_value" =
        some (Json.num (max p.min (min p.max (3/2)))) ∧
      jGet (Json.obj [("track_index", jInt 0), ("device_index", jInt 0),
        ("device_name", Json.str "Glue Compressor"),
        ("parameter_name", Json.str "Threshold"),
        ("old_value", Json.num 1), ("new_value", Json.num 1),
        ("value_string", Json.str "")]) "new_value" =
        some (Json.num (max p.min (min p.max (3/2)))) ∧
      jGet (Json.obj [("track_index", jInt 0), ("device_index", jInt 0),
        ("device_name", Json.str "Glue Compressor"),
        ("parameter_name", Json.str "Threshold"),
        ("old_value", Json.num 1), ("new_value", Json.num 1),
        ("value_string", Json.str "")]) "old_value" =
        jGet (Json.obj [("track_index", jInt 0), ("device_index", jInt 0),
          ("device_name", Json.str "Glue Compressor"),
          ("parameter_name", Json.str "Threshold"),
          ("old_value", Json.num 1), ("new_value", Json.num 1),
          ("value_string", Json.str "")]) "new_value" :=
  set_device_parameter_old_value_reads_back_clamped demoHost demoSong 0 0
    "threshold" (3/2)
    (setTrack demoSong 0
      { demoTrack with devices :=
          [{ demoDevice with parameters := [{ demoParam with value := 1 }] }] })
    (Json.obj [("track_index", jInt 0), ("device_index", jInt 0),
      ("device_name", Json.str "Glue Compressor"),
      ("parameter_name", Json.str "Threshold"),
      ("old_value", Json.num 1), ("new_value", Json.num 1),
      ("value_string", Json.str "")])
    (by with_unfolding_all rfl)
